import Mathlib

/-!
Shallow embedding of the port-based process reconciliation engine of
`src/api/server.js` (deploymint_mini).

The OS is modelled as an explicit `World` state: which PIDs are bound to
which TCP port, how each PID reacts to a `kill` signal, and which probes
fault.  JavaScript's async/await sequencing is a state-threading monad `M`
with exceptions (a rejected promise / thrown `Error` is `Res.err`); the
settle delay (`delay(ms)`) is the moment at which asynchronous OS process
teardown is applied: PIDs that received a fatal signal are in the `dying`
set and disappear from the port tables when a delay runs.  Port numbers are
integers (JSON numbers restricted to integers), PIDs are naturals.
-/

/-- A JSON value feeding `addPort` inside `getConfigPorts` (server.js:42-52):
`null`/`undefined` are skipped before conversion, `Number(value)` may yield
`NaN` (skipped) or an integer. -/
inductive JNum where
  | null : JNum
  | nan : JNum
  | num : Int → JNum
deriving DecidableEq, Repr

/-- A saved server configuration (entry of `servers.json`): `directory`,
`command`, and port information as consumed by `getConfigPorts`
(server.js:54-62): a scalar `port`, an optional `ports` array and an
optional `additionalPorts` array (`none` models a missing / non-array
field, rejected by `Array.isArray`). -/
structure Config where
  directory : String
  command : String
  port : JNum
  ports : Option (List JNum)
  additionalPorts : Option (List JNum)
deriving DecidableEq, Repr

/-- `addPort` of server.js:42-52: skip `null`/`undefined`, convert with
`Number`, skip `NaN`, keep values `> 0`; insertion into a JS `Set`
preserves first-insertion order and drops duplicates. -/
def addPort (l : List Int) (v : JNum) : List Int :=
  match v with
  | JNum.null => l
  | JNum.nan => l
  | JNum.num n => if 0 < n then (if n ∈ l then l else l ++ [n]) else l

/-- `getConfigPorts` of server.js:39-65: collect `config.port`, then the
`config.ports` array, then the `config.additionalPorts` array into one
insertion-ordered duplicate-free list. -/
def getConfigPorts (c : Config) : List Int :=
  let l0 := addPort [] c.port
  let l1 := match c.ports with
    | some arr => arr.foldl addPort l0
    | none => l0
  match c.additionalPorts with
  | some arr => arr.foldl addPort l1
  | none => l1

/-- How a PID reacts to `kill pid` (server.js:93): the `exec` succeeds and
the process will die (`dies`), the `exec` succeeds but the process stays
bound (`stubborn`, e.g. it ignores the signal), or the `exec` reports an
error message (`err`), which `killProcesses` forgives exactly when the
message matches `/No such process/i`. -/
inductive KillBehavior where
  | dies : KillBehavior
  | stubborn : KillBehavior
  | err : String → KillBehavior
deriving DecidableEq, Repr

/-- Result of `checkPort` (server.js:68-80): `running`, the representative
`pid` (`pids[0]`) and the full PID list. -/
structure Occ where
  running : Bool
  pid : Option Nat
  pids : List Nat
deriving DecidableEq, Repr

/-- One entry of `freedPortInfo` / `stoppedPorts`: a port and the PIDs that
occupied it. -/
structure FreedEntry where
  port : Int
  pids : List Nat
deriving DecidableEq, Repr

/-- The modelled world: OS state (`bound`, `killBehavior`, `dying`,
`probeFault`, `dirExists`), the config store (`servers`, the parsed
`servers.json`), the in-memory `processes` map (`records`), and
observation logs (`launches`: one entry per `spawn`; `killLog`: one entry
per `kill` execed; `delays`: the ms argument of each `delay` call). -/
structure World where
  bound : Int → List Nat
  killBehavior : Nat → KillBehavior
  dying : List Nat
  probeFault : Int → Option String
  dirExists : String → Bool
  servers : String → Option Config
  records : String → Option Nat
  launches : List (String × String × String)
  nextPid : Nat
  killLog : List Nat
  delays : List Nat

/-- Outcome of running an async step: a resolved value or a thrown /
rejected error, each together with the world it left behind. -/
inductive Res (α : Type) where
  | ok : α → World → Res α
  | err : String → World → Res α

/-- The state-plus-exception monad interpreting `async` JavaScript. -/
def M (α : Type) : Type := World → Res α

def M.pure (a : α) : M α := fun s => Res.ok a s

def M.bind (x : M α) (f : α → M β) : M β := fun s =>
  match x s with
  | Res.ok a s' => f a s'
  | Res.err e s' => Res.err e s'

instance : Monad M where
  pure := M.pure
  bind := M.bind

/-- `throw new Error(msg)` / promise rejection. -/
def M.throw (msg : String) : M α := fun s => Res.err msg s

/-- `try { x } catch (e) { h(e) }`. -/
def M.tryCatch (x : M α) (h : String → M α) : M α := fun s =>
  match x s with
  | Res.ok a s' => Res.ok a s'
  | Res.err e s' => h e s'

/-- The world a computation ends in, on success or failure. -/
def resState (r : Res α) : World :=
  match r with
  | Res.ok _ s => s
  | Res.err _ s => s

/-- Whether a computation resolved. -/
def resOk (r : Res α) : Bool :=
  match r with
  | Res.ok _ _ => true
  | Res.err _ _ => false

/-- Comma-join used by the server's messages (`pids.join(', ')`). -/
def pidsJoin (pids : List Nat) : String :=
  String.intercalate ", " (pids.map toString)

/-- The occupancy `checkPort` reports for a raw `lsof` PID list. -/
def occOf (pids : List Nat) : Occ :=
  match pids with
  | [] => { running := false, pid := none, pids := [] }
  | p :: rest => { running := true, pid := some p, pids := p :: rest }

/-- `checkPort` of server.js:68-80: run `lsof -i :port -t`; an `exec`
error or empty output resolves `running:false`; otherwise the PIDs.  A
synchronous fault of the probe infrastructure itself (modelled by
`probeFault`) rejects the promise. -/
def checkPort (port : Int) : M Occ := fun s =>
  match s.probeFault port with
  | some msg => Res.err msg s
  | none => Res.ok (occOf (s.bound port)) s

/-- `delay(ms)` of server.js:82-84.  This is where asynchronous OS
teardown lands: PIDs in the `dying` set vanish from every port table. -/
def delayM (ms : Nat) : M Unit := fun s =>
  Res.ok ()
    { s with
      bound := fun p => (s.bound p).filter (fun pid => !(s.dying.contains pid))
      delays := s.delays ++ [ms] }

/-- Substring occurrence on character lists. -/
def hasSub (pat : List Char) : List Char → Bool
  | [] => pat.isEmpty
  | c :: rest => pat.isPrefixOf (c :: rest) || hasSub pat rest

/-- The `/No such process/i` test of server.js:94: case-insensitive
substring match. -/
def isNoSuchProcess (msg : String) : Bool :=
  hasSub ("no such process".toList) (msg.toList.map Char.toLower)

/-- One iteration of the `killProcesses` loop (server.js:91-101): exec
`kill pid`; a `dies` target is signalled fatally (enters `dying`), a
`stubborn` one is signalled but stays; an exec error is forgiven exactly
when it matches `/No such process/i`, otherwise the promise rejects. -/
def killOne (pid : Nat) : M Unit := fun s =>
  let s1 := { s with killLog := s.killLog ++ [pid] }
  match s.killBehavior pid with
  | KillBehavior.dies => Res.ok () { s1 with dying := s1.dying ++ [pid] }
  | KillBehavior.stubborn => Res.ok () s1
  | KillBehavior.err msg =>
      if isNoSuchProcess msg then Res.ok () s1 else Res.err msg s1

/-- `killProcesses` of server.js:86-102: signal each PID in order,
stopping at the first unforgiven error. -/
def killProcesses : List Nat → M Unit
  | [] => M.pure ()
  | pid :: rest => M.bind (killOne pid) (fun _ => killProcesses rest)

/-- The `Unable to free port ...` message of server.js:115. -/
def stillBoundMsg (port : Int) (pids : List Nat) : String :=
  "Unable to free port " ++ toString port ++ ". Still in use by PID(s): " ++
    pidsJoin pids

/-- The result of `ensurePortFree`: the spec's ReclaimResult. -/
structure ReclaimResult where
  freed : Bool
  pids : List Nat
deriving DecidableEq, Repr

/-- `ensurePortFree` of server.js:104-119: inspect; if free return
`{freed:false, pids:[]}` untouched; else kill the occupants, wait the
400ms settle delay, re-inspect, and either throw `PortStillBound` or
return `{freed:true, pids: original occupants}`. -/
def ensurePortFree (port : Int) : M ReclaimResult := do
  let initial ← checkPort port
  if initial.running then
    killProcesses initial.pids
    delayM 400
    let afterKill ← checkPort port
    if afterKill.running then
      M.throw (stillBoundMsg port afterKill.pids)
    else
      M.pure { freed := true, pids := initial.pids }
  else
    M.pure { freed := false, pids := [] }

/-- `ensurePortsFree` of server.js:121-136: sequential loop over the
ports, pushing a `{port, pids}` entry only when `result.freed`; the first
throw propagates (there is no catch inside the loop). -/
def ensurePortsFree : List Int → M (List FreedEntry)
  | [] => M.pure []
  | port :: rest => do
      let result ← ensurePortFree port
      let others ← ensurePortsFree rest
      if result.freed then
        M.pure ({ port := port, pids := result.pids } :: others)
      else
        M.pure others

/-- Read the config store (`loadServers()` reading `servers.json`). -/
def getServersM : M (String → Option Config) := fun s => Res.ok s.servers s

/-- `fs.existsSync(dir)`. -/
def dirExistsM (d : String) : M Bool := fun s => Res.ok (s.dirExists d) s

/-- `launchServer` of server.js:138-155: spawn the command detached in the
config's directory, record `{pid, startTime}` in the `processes` map under
the url, return the child PID.  The fresh PID is `nextPid`. -/
def launchServer (config : Config) (url : String) : M Nat := fun s =>
  Res.ok s.nextPid
    { s with
      records := fun u => if u = url then some s.nextPid else s.records u
      launches := s.launches ++ [(url, config.command, config.directory)]
      nextPid := s.nextPid + 1 }

/-- `processes.delete(url)` (server.js:359). -/
def deleteRecord (url : String) : M Unit := fun s =>
  Res.ok () { s with records := fun u => if u = url then none else s.records u }

/-- The per-port checks built by `ports.map(checkPort)` under
`Promise.all` (server.js:211-219 and 332-340); the probes are read-only,
so sequential evaluation is observationally the same. -/
def checkPorts : List Int → M (List (Int × Occ))
  | [] => M.pure []
  | p :: rest => do
      let c ← checkPort p
      let others ← checkPorts rest
      M.pure ((p, c) :: others)

/-- Response of `GET /api/status`. -/
structure StatusResponse where
  status : String
  message : Option String
  pid : Option Nat
  port : Option Int
  ports : List (Int × Occ)
  error : Option String
deriving DecidableEq, Repr

/-- A status response with only the `status` field set. -/
def mkStatus (st : String) : StatusResponse :=
  { status := st, message := none, pid := none, port := none, ports := [],
    error := none }

/-- Body of the `/api/status` handler (server.js:199-236), inside the try. -/
def statusBody (url : String) : M StatusResponse := do
  let servers ← getServersM
  match servers url with
  | none =>
      M.pure { mkStatus "unconfigured" with message := some "Server not configured" }
  | some config =>
      let ports := getConfigPorts config
      if ports.isEmpty then
        M.pure { mkStatus "unconfigured" with
                   message := some "No ports configured for server" }
      else do
        let portChecks ← checkPorts ports
        match portChecks.find? (fun pc => pc.2.running) with
        | some rp =>
            M.pure { mkStatus "running" with
                       pid := rp.2.pid, port := some rp.1, ports := portChecks }
        | none =>
            M.pure { mkStatus "stopped" with
                       port := ports.head?, ports := portChecks }

/-- `GET /api/status` (server.js:192-240): the body under a catch-all that
degrades any thrown error to `status: unknown` with the message. -/
def statusHandler (url : String) : M StatusResponse :=
  M.tryCatch (statusBody url)
    (fun msg => M.pure { mkStatus "unknown" with error := some msg })

/-- Response of the start/stop/restart endpoints. -/
structure OpResponse where
  success : Bool
  message : Option String
  error : Option String
  pid : Option Nat
  replacedPorts : List FreedEntry
  stoppedPorts : List FreedEntry
deriving DecidableEq, Repr

/-- A failure response carrying only `success:false` and the error. -/
def opFail (msg : String) : OpResponse :=
  { success := false, message := none, error := some msg, pid := none,
    replacedPorts := [], stoppedPorts := [] }

/-- The `Replaced previous process(es) ...` note (server.js:289-293). -/
def replacementNote (freed : List FreedEntry) : String :=
  if freed.isEmpty then ""
  else
    " Replaced previous process(es) on port(s): " ++
      String.intercalate ", "
        (freed.map (fun i => toString i.port ++ " (PID(s): " ++ pidsJoin i.pids ++ ")")) ++
      "."

/-- `POST /api/start` (server.js:243-304): config lookup, port-set
normalization, reclaim (its throw caught and turned into a failure
response), directory check, launch. -/
def startHandler (url : String) : M OpResponse :=
  M.tryCatch (do
      let servers ← getServersM
      match servers url with
      | none =>
          M.pure (opFail "Server not configured. Please configure the server first.")
      | some config =>
          let ports := getConfigPorts config
          if ports.isEmpty then
            M.pure (opFail "No ports configured. Please add at least one port.")
          else do
            let freedOrErr ←
              M.tryCatch (M.bind (ensurePortsFree ports) (fun l => M.pure (Except.ok l)))
                (fun e => M.pure (Except.error e))
            match freedOrErr with
            | Except.error e => M.pure (opFail e)
            | Except.ok freed => do
                let dirOk ← dirExistsM config.directory
                if dirOk then do
                  let pid ← launchServer config url
                  M.pure { success := true,
                           message := some ("Server starting on port " ++
                             toString (ports.headD 0) ++ "." ++ replacementNote freed),
                           error := none, pid := some pid,
                           replacedPorts := freed, stoppedPorts := [] }
                else
                  M.pure (opFail ("Directory not found: " ++ config.directory)))
    (fun e => M.pure (opFail e))

/-- The kill loop of `/api/stop` (server.js:353-356): per occupied port,
signal the snapshot PIDs then wait 200ms. -/
def stopKills : List (Int × Occ) → M Unit
  | [] => M.pure ()
  | pc :: rest => do
      killProcesses pc.2.pids
      delayM 200
      stopKills rest

/-- The `Server stopped on port(s): ...` message (server.js:363-365). -/
def stopMsg (running : List (Int × Occ)) : String :=
  "Server stopped on port(s): " ++
    String.intercalate ", "
      (running.map (fun i => toString i.1 ++ " (PID(s): " ++ pidsJoin i.2.pids ++ ")"))

/-- `POST /api/stop` (server.js:307-380): config lookup, port-set
normalization, probe all ports, `NotRunning` when none is occupied, else
kill loop + one more 200ms delay, drop the launch record, and report the
stopped ports; kill failures surface as a failure response. -/
def stopHandler (url : String) : M OpResponse :=
  M.tryCatch (do
      let servers ← getServersM
      match servers url with
      | none => M.pure (opFail "Server not configured")
      | some config =>
          let ports := getConfigPorts config
          if ports.isEmpty then
            M.pure (opFail "No ports configured. Please add at least one port.")
          else do
            let portChecks ← checkPorts ports
            let runningPorts := portChecks.filter (fun pc => pc.2.running)
            if runningPorts.isEmpty then
              M.pure (opFail "Server is not running")
            else
              M.tryCatch (do
                  stopKills runningPorts
                  delayM 200
                  deleteRecord url
                  M.pure { success := true, message := some (stopMsg runningPorts),
                           error := none, pid := none, replacedPorts := [],
                           stoppedPorts :=
                             runningPorts.map (fun pc => FreedEntry.mk pc.1 pc.2.pids) })
                (fun e => M.pure (opFail ("Failed to stop server: " ++ e))))
    (fun e => M.pure (opFail e))

/-- `POST /api/restart` (server.js:383-442): mechanically identical to
start, with the `restarted`/`started` wording. -/
def restartHandler (url : String) : M OpResponse :=
  M.tryCatch (do
      let servers ← getServersM
      match servers url with
      | none => M.pure (opFail "Server not configured")
      | some config =>
          let ports := getConfigPorts config
          if ports.isEmpty then
            M.pure (opFail "No ports configured. Please add at least one port.")
          else do
            let freedOrErr ←
              M.tryCatch (M.bind (ensurePortsFree ports) (fun l => M.pure (Except.ok l)))
                (fun e => M.pure (Except.error e))
            match freedOrErr with
            | Except.error e => M.pure (opFail e)
            | Except.ok freed => do
                let dirOk ← dirExistsM config.directory
                if dirOk then do
                  let pid ← launchServer config url
                  M.pure { success := true,
                           message := some ("Server " ++
                             (if freed.isEmpty then "started" else "restarted") ++
                             " on port " ++ toString (ports.headD 0) ++ "." ++
                             replacementNote freed),
                           error := none, pid := some pid,
                           replacedPorts := freed, stoppedPorts := [] }
                else
                  M.pure (opFail ("Directory not found: " ++ config.directory)))
    (fun e => M.pure (opFail e))

/-- Environment fields a reclaim / kill / delay step never touches. -/
def SameEnv (s s' : World) : Prop :=
  s'.servers = s.servers ∧ s'.dirExists = s.dirExists ∧
    s'.probeFault = s.probeFault ∧ s'.killBehavior = s.killBehavior ∧
    s'.records = s.records ∧ s'.launches = s.launches ∧ s'.nextPid = s.nextPid

/-- A kill attempt on `pid` is forgiven by `killProcesses`. -/
def killSucceeds (s : World) (pid : Nat) : Prop :=
  s.killBehavior pid = KillBehavior.dies ∨
    s.killBehavior pid = KillBehavior.stubborn ∨
    ∃ m, s.killBehavior pid = KillBehavior.err m ∧ isNoSuchProcess m = true

/-- The PIDs of a list that are fatally signalled in world `s`. -/
def diesIn (s : World) (pids : List Nat) : List Nat :=
  pids.filter (fun pid => decide (s.killBehavior pid = KillBehavior.dies))

/-- The world after the kill + settle-delay phase of `ensurePortFree port`
when every kill is forgiven: fatally signalled occupants are in `dying`,
the signals and the 400ms delay are logged, and every port table has been
purged of the dying PIDs. -/
def afterReclaim (port : Int) (s : World) : World :=
  { s with dying := s.dying ++ diesIn s (s.bound port),
           killLog := s.killLog ++ s.bound port,
           delays := s.delays ++ [400],
           bound := fun q => (s.bound q).filter
             (fun pid => !((s.dying ++ diesIn s (s.bound port)).contains pid)) }

/-- The occupants of `port` that survive the reclaim's kill + settle delay:
those whose kill signal is ignored. -/
def stuckPids (port : Int) (s : World) : List Nat :=
  (s.bound port).filter (fun pid => decide (s.killBehavior pid = KillBehavior.stubborn))

/-- The response `/api/status` builds from the list of per-port probes. -/
def statusProbeResp (ports : List Int) (pcs : List (Int × Occ)) : StatusResponse :=
  match pcs.find? (fun pc => pc.2.running) with
  | some rp =>
      { mkStatus "running" with
          pid := rp.2.pid
          port := some rp.1
          ports := pcs }
  | none =>
      { mkStatus "stopped" with
          port := ports.head?
          ports := pcs }

/-- The success response of `/api/stop` in terms of the occupied ports. -/
def stopSuccessResp (occupied : List Int) (s : World) : OpResponse :=
  { success := true
    message := some (stopMsg (occupied.map (fun p => (p, occOf (s.bound p)))))
    error := none
    pid := none
    replacedPorts := []
    stoppedPorts := occupied.map (fun p => FreedEntry.mk p (s.bound p)) }

/-- The integers among a list of JSON port values, in order (what `Number`
turns into a usable number before the positivity test). -/
def numsOf (l : List JNum) : List Int :=
  l.filterMap (fun v => match v with
    | JNum.num n => some n
    | JNum.null => none
    | JNum.nan => none)

/-- All port-bearing JSON values of a config, in the order `getConfigPorts`
visits them: the scalar `port`, the `ports` array, the `additionalPorts`
array. -/
def allJ (c : Config) : List JNum :=
  [c.port] ++ (match c.ports with
    | some a => a
    | none => []) ++
    (match c.additionalPorts with
     | some a => a
     | none => [])

/-- A single-port config (port 7000). -/
def cfgOne : Config :=
  { directory := "/srv/app"
    command := "npm start"
    port := JNum.num 7000
    ports := none
    additionalPorts := none }

/-- A two-port config (ports 6000 and 7000). -/
def cfgTwo : Config :=
  { directory := "/srv/app"
    command := "npm start"
    port := JNum.num 6000
    ports := some [JNum.num 7000]
    additionalPorts := none }

/-- World with `cfgTwo` saved under `"app"` and every port free. -/
def wFree : World :=
  { bound := fun _ => []
    killBehavior := fun _ => KillBehavior.dies
    dying := []
    probeFault := fun _ => none
    dirExists := fun _ => true
    servers := fun u => if u = "app" then some cfgTwo else none
    records := fun _ => none
    launches := []
    nextPid := 90
    killLog := []
    delays := [] }

/-- World with `cfgTwo` saved under `"app"`: port 6000 free, port 7000
occupied by PID 41, every process dying on signal, no faults. -/
def wRun : World :=
  { bound := fun p => if p = 7000 then [41] else []
    killBehavior := fun _ => KillBehavior.dies
    dying := []
    probeFault := fun _ => none
    dirExists := fun _ => true
    servers := fun u => if u = "app" then some cfgTwo else none
    records := fun _ => none
    launches := []
    nextPid := 90
    killLog := []
    delays := [] }

/-- World with `cfgOne` saved under `"app"`: port 7000 occupied by PIDs 41
and 42, where 42 ignores the termination signal. -/
def wStuck : World :=
  { bound := fun p => if p = 7000 then [41, 42] else []
    killBehavior := fun pid => if pid = 42 then KillBehavior.stubborn
      else KillBehavior.dies
    dying := []
    probeFault := fun _ => none
    dirExists := fun _ => true
    servers := fun u => if u = "app" then some cfgOne else none
    records := fun _ => none
    launches := []
    nextPid := 90
    killLog := []
    delays := [] }

/-- World with `cfgOne` saved under `"app"`, port 7000 occupied by PID 41,
but the configured directory does not exist. -/
def wNoDir : World :=
  { bound := fun p => if p = 7000 then [41] else []
    killBehavior := fun _ => KillBehavior.dies
    dying := []
    probeFault := fun _ => none
    dirExists := fun _ => false
    servers := fun u => if u = "app" then some cfgOne else none
    records := fun _ => none
    launches := []
    nextPid := 90
    killLog := []
    delays := [] }

/-- World with `cfgOne` saved under `"app"` whose probe of port 7000 faults. -/
def wFault : World :=
  { bound := fun _ => []
    killBehavior := fun _ => KillBehavior.dies
    dying := []
    probeFault := fun p => if p = 7000 then some "spawn lsof EAGAIN" else none
    dirExists := fun _ => true
    servers := fun u => if u = "app" then some cfgOne else none
    records := fun _ => none
    launches := []
    nextPid := 90
    killLog := []
    delays := [] }

/-- World for the terminator: PID 77 is already gone (`No such process`),
PID 88 is protected (permission denied), the rest die. -/
def wKill : World :=
  { bound := fun _ => []
    killBehavior := fun pid =>
      if pid = 77 then KillBehavior.err "kill: No such process"
      else if pid = 88 then KillBehavior.err "kill: Operation not permitted"
      else KillBehavior.dies
    dying := []
    probeFault := fun _ => none
    dirExists := fun _ => true
    servers := fun _ => none
    records := fun _ => none
    launches := []
    nextPid := 90
    killLog := []
    delays := [] }

/-- A config whose port fields yield no positive number. -/
def cfgEmpty : Config :=
  { directory := "/srv/app"
    command := "npm start"
    port := JNum.null
    ports := some [JNum.nan, JNum.num 0, JNum.num (-5)]
    additionalPorts := some [] }

/-- World with `cfgEmpty` saved under `"app"`. -/
def wEmpty : World :=
  { bound := fun _ => []
    killBehavior := fun _ => KillBehavior.dies
    dying := []
    probeFault := fun _ => none
    dirExists := fun _ => true
    servers := fun u => if u = "app" then some cfgEmpty else none
    records := fun _ => none
    launches := []
    nextPid := 90
    killLog := []
    delays := [] }

/-- Config with scalar `port: 3000`. -/
def cfg3A : Config :=
  { directory := "/a"
    command := "c"
    port := JNum.num 3000
    ports := none
    additionalPorts := none }

/-- Config with `ports: [3000, 3000]` and no scalar port. -/
def cfg3B : Config :=
  { directory := "/a"
    command := "c"
    port := JNum.null
    ports := some [JNum.num 3000, JNum.num 3000]
    additionalPorts := none }

/-- Config with `port: 3000, additionalPorts: [3000]`. -/
def cfg3C : Config :=
  { directory := "/a"
    command := "c"
    port := JNum.num 3000
    ports := none
    additionalPorts := some [JNum.num 3000] }

theorem bind_eq {α β : Type} (x : M α) (f : α → M β) : x >>= f = M.bind x f := rfl

theorem pure_eq {α : Type} (a : α) : (pure a : M α) = M.pure a := rfl

theorem tryCatch_ok {α : Type} {x : M α} {h : String → M α} {s : World} {a : α}
    {s' : World} (hx : x s = Res.ok a s') : M.tryCatch x h s = Res.ok a s' := by
  simp [M.tryCatch, hx]

theorem tryCatch_err {α : Type} {x : M α} {h : String → M α} {s : World} {e : String}
    {s' : World} (hx : x s = Res.err e s') : M.tryCatch x h s = h e s' := by
  simp [M.tryCatch, hx]

theorem checkPort_ok {port : Int} {s : World} (hf : s.probeFault port = none) :
    checkPort port s = Res.ok (occOf (s.bound port)) s := by
  simp [checkPort, hf]

theorem checkPort_err {port : Int} {s : World} {msg : String}
    (hf : s.probeFault port = some msg) : checkPort port s = Res.err msg s := by
  simp [checkPort, hf]

theorem sameEnv_refl (s : World) : SameEnv s s := by
  simp [SameEnv]

theorem sameEnv_trans {s t u : World} (h1 : SameEnv s t) (h2 : SameEnv t u) :
    SameEnv s u := by
  obtain ⟨a1, a2, a3, a4, a5, a6, a7⟩ := h1
  obtain ⟨b1, b2, b3, b4, b5, b6, b7⟩ := h2
  exact ⟨b1.trans a1, b2.trans a2, b3.trans a3, b4.trans a4, b5.trans a5,
    b6.trans a6, b7.trans a7⟩

theorem killProcesses_ok : ∀ (pids : List Nat) (s : World),
    (∀ pid ∈ pids, killSucceeds s pid) →
    killProcesses pids s =
      Res.ok () { s with dying := s.dying ++ diesIn s pids,
                         killLog := s.killLog ++ pids }
  | [], s, _ => by
      simp [killProcesses, M.pure, diesIn]
  | pid :: rest, s, h => by
      have hpid := h pid (by simp)
      have hrest : ∀ q ∈ rest, killSucceeds s q := fun q hq => h q (by simp [hq])
      rcases hpid with hd | hs | ⟨m, hm, hno⟩
      · have ih := killProcesses_ok rest
          { s with killLog := s.killLog ++ [pid], dying := s.dying ++ [pid] }
          (by simpa [killSucceeds] using hrest)
        simp only [killProcesses, M.bind, killOne, hd] at ih ⊢
        rw [ih]
        simp [diesIn, hd, List.append_assoc]
      · have ih := killProcesses_ok rest { s with killLog := s.killLog ++ [pid] }
          (by simpa [killSucceeds] using hrest)
        simp only [killProcesses, M.bind, killOne, hs] at ih ⊢
        rw [ih]
        simp [diesIn, hs, List.append_assoc]
      · have ih := killProcesses_ok rest { s with killLog := s.killLog ++ [pid] }
          (by simpa [killSucceeds] using hrest)
        simp only [killProcesses, M.bind, killOne, hm, hno, if_true] at ih ⊢
        rw [ih]
        simp [diesIn, hm, List.append_assoc]

theorem killOne_ok {s : World} {pid : Nat} (h : killSucceeds s pid) :
    killOne pid s =
      Res.ok () { s with dying := s.dying ++ diesIn s [pid],
                         killLog := s.killLog ++ [pid] } := by
  rcases h with hd | hs | ⟨m, hm, hno⟩
  · simp [killOne, hd, diesIn]
  · simp [killOne, hs, diesIn]
  · simp [killOne, hm, hno, diesIn]

theorem killProcesses_err : ∀ (good : List Nat) (bad : Nat) (rest : List Nat)
    (s : World) (msg : String),
    (∀ pid ∈ good, killSucceeds s pid) →
    s.killBehavior bad = KillBehavior.err msg →
    isNoSuchProcess msg = false →
    killProcesses (good ++ bad :: rest) s =
      Res.err msg { s with dying := s.dying ++ diesIn s good,
                           killLog := s.killLog ++ good ++ [bad] }
  | [], bad, rest, s, msg, _, hbad, hno => by
      simp [killProcesses, M.bind, killOne, hbad, hno, diesIn]
  | g :: good', bad, rest, s, msg, hgood, hbad, hno => by
      have hg := hgood g (by simp)
      have ih := killProcesses_err good' bad rest
        { s with dying := s.dying ++ diesIn s [g], killLog := s.killLog ++ [g] }
        msg
        (fun q hq => by simpa [killSucceeds] using hgood q (by simp [hq]))
        (by simpa using hbad) hno
      simp only [killProcesses, List.cons_append, List.append_eq, M.bind,
        killOne_ok hg] at ih ⊢
      rw [ih]
      simp [diesIn, List.filter_cons, List.append_assoc]
      rcases Decidable.em (s.killBehavior g = KillBehavior.dies) with hgd | hgd <;>
        simp [hgd, List.append_assoc]

theorem occOf_ne_nil {l : List Nat} (h : l ≠ []) :
    occOf l = { running := true, pid := l.head?, pids := l } := by
  cases l with
  | nil => exact absurd rfl h
  | cons a t => simp [occOf]

theorem ensurePortFree_occupied {port : Int} {s : World}
    (hf : s.probeFault port = none) (hb : s.bound port ≠ [])
    (hk : ∀ pid ∈ s.bound port, killSucceeds s pid) :
    ensurePortFree port s =
      if ((afterReclaim port s).bound port).isEmpty then
        Res.ok { freed := true, pids := s.bound port } (afterReclaim port s)
      else
        Res.err (stillBoundMsg port ((afterReclaim port s).bound port))
          (afterReclaim port s) := by
  cases hrem : (afterReclaim port s).bound port with
  | nil =>
      have hrem2 : (s.bound port).filter
          (fun pid => !decide (pid ∈ s.dying) && !decide (pid ∈ diesIn s (s.bound port))) = [] := by
        rw [show ([] : List Nat) = (afterReclaim port s).bound port from hrem.symm]
        simp only [afterReclaim]
        apply List.filter_congr
        intro x _
        simp
      simp only [ensurePortFree, bind_eq, pure_eq, M.bind]
      rw [checkPort_ok hf, occOf_ne_nil hb]
      simp [killProcesses_ok _ _ hk, delayM, M.bind, checkPort, hf, hrem2, occOf,
        M.pure, afterReclaim]
  | cons a t =>
      have hrem2 : (s.bound port).filter
          (fun pid => !decide (pid ∈ s.dying) && !decide (pid ∈ diesIn s (s.bound port))) = a :: t := by
        rw [show a :: t = (afterReclaim port s).bound port from hrem.symm]
        simp only [afterReclaim]
        apply List.filter_congr
        intro x _
        simp
      simp only [ensurePortFree, bind_eq, pure_eq, M.bind]
      rw [checkPort_ok hf, occOf_ne_nil hb]
      simp [killProcesses_ok _ _ hk, delayM, M.bind, checkPort, hf, hrem2, occOf,
        M.throw, afterReclaim, hrem]

theorem ensurePortFree_free {port : Int} {s : World} (hf : s.probeFault port = none)
    (hb : s.bound port = []) :
    ensurePortFree port s = Res.ok { freed := false, pids := [] } s := by
  simp only [ensurePortFree, bind_eq, pure_eq, M.bind]
  rw [checkPort_ok hf]
  simp [hb, occOf, M.pure]

theorem diesIn_all_dies {s : World} {l : List Nat}
    (h : ∀ pid ∈ l, s.killBehavior pid = KillBehavior.dies) : diesIn s l = l := by
  rw [diesIn, List.filter_eq_self]
  intro a ha
  simp [h a ha]

theorem ensurePortFree_success {port : Int} {s : World}
    (hf : s.probeFault port = none) (hb : s.bound port ≠ [])
    (hk : ∀ pid ∈ s.bound port, s.killBehavior pid = KillBehavior.dies) :
    ensurePortFree port s =
        Res.ok { freed := true, pids := s.bound port } (afterReclaim port s) ∧
      (afterReclaim port s).bound port = [] := by
  have hempty : (afterReclaim port s).bound port = [] := by
    simp only [afterReclaim]
    rw [List.filter_eq_nil_iff]
    intro a ha
    have : a ∈ s.dying ++ diesIn s (s.bound port) := by
      apply List.mem_append_right
      exact List.mem_filter.mpr ⟨ha, by simp [hk a ha]⟩
    simp [this]
  refine ⟨?_, hempty⟩
  rw [ensurePortFree_occupied hf hb (fun pid h => Or.inl (hk pid h))]
  simp [hempty]

theorem ensurePortFree_stuck {port : Int} {s : World}
    (hf : s.probeFault port = none)
    (hk : ∀ pid ∈ s.bound port, s.killBehavior pid = KillBehavior.dies ∨
      s.killBehavior pid = KillBehavior.stubborn)
    (hd : ∀ pid ∈ s.bound port, pid ∉ s.dying)
    (hstuck : ∃ pid ∈ s.bound port, s.killBehavior pid = KillBehavior.stubborn) :
    ensurePortFree port s =
      Res.err (stillBoundMsg port (stuckPids port s)) (afterReclaim port s) := by
  obtain ⟨w, hwmem, hwstu⟩ := hstuck
  have hb : s.bound port ≠ [] := by
    intro h
    rw [h] at hwmem
    exact absurd hwmem (List.not_mem_nil w)
  have hrem : (afterReclaim port s).bound port = stuckPids port s := by
    simp only [afterReclaim, stuckPids]
    apply List.filter_congr
    intro x hx
    rcases hk x hx with hdies | hstu
    · have hxd : x ∈ s.dying ++ diesIn s (s.bound port) :=
        List.mem_append_right _ (List.mem_filter.mpr ⟨hx, by simp [hdies]⟩)
      simp [hxd, hdies]
    · have hxd : x ∉ s.dying ++ diesIn s (s.bound port) := by
        rw [List.mem_append]
        rintro (h1 | h2)
        · exact hd x hx h1
        · have := (List.mem_filter.mp h2).2
          simp [hstu] at this
      simp [hxd, hstu]
  have hne : stuckPids port s ≠ [] := by
    intro h
    rw [List.eq_nil_iff_forall_not_mem] at h
    exact h w (List.mem_filter.mpr ⟨hwmem, by simp [hwstu]⟩)
  rw [ensurePortFree_occupied hf hb
    (fun pid h => (hk pid h).elim Or.inl (fun h2 => Or.inr (Or.inl h2)))]
  rw [hrem]
  simp [List.isEmpty_iff, hne]

theorem ensurePortsFree_abort {port : Int} {rest : List Int} {s s1 : World}
    {e : String} (h : ensurePortFree port s = Res.err e s1) :
    ensurePortsFree (port :: rest) s = Res.err e s1 := by
  simp only [ensurePortsFree, bind_eq, pure_eq, M.bind]
  rw [h]

theorem ensurePortsFree_success : ∀ (ports : List Int) (s : World),
    (∀ p ∈ ports, s.probeFault p = none) →
    (∀ p ∈ ports, ∀ pid ∈ s.bound p, s.killBehavior pid = KillBehavior.dies) →
    (∀ p ∈ ports, ∀ pid ∈ s.bound p, pid ∉ s.dying) →
    List.Pairwise (fun p q => ∀ pid, pid ∈ s.bound p → pid ∉ s.bound q) ports →
    ∃ s', ensurePortsFree ports s =
        Res.ok ((ports.filter (fun p => !(s.bound p).isEmpty)).map
          (fun p => { port := p, pids := s.bound p })) s' ∧
      SameEnv s s' ∧
      s'.killLog = s.killLog ++ (ports.map (fun p => s.bound p)).flatten ∧
      s'.delays = s.delays ++
        (ports.filter (fun p => !(s.bound p).isEmpty)).map (fun _ => 400) ∧
      (∀ q pid, pid ∈ s'.bound q → pid ∈ s.bound q) ∧
      (∀ q ∈ ports, s'.bound q = [])
  | [], s, _, _, _, _ => by
      refine ⟨s, ?_, sameEnv_refl s, by simp, by simp, fun q pid h => h, by simp⟩
      simp [ensurePortsFree, M.pure]
  | port :: rest, s, hf, hk, hd, hdisj => by
      have hfp : s.probeFault port = none := hf port (by simp)
      have hfr : ∀ p ∈ rest, s.probeFault p = none := fun p hp => hf p (by simp [hp])
      have hkr : ∀ p ∈ rest, ∀ pid ∈ s.bound p,
          s.killBehavior pid = KillBehavior.dies := fun p hp => hk p (by simp [hp])
      have hdr : ∀ p ∈ rest, ∀ pid ∈ s.bound p, pid ∉ s.dying :=
        fun p hp => hd p (by simp [hp])
      have hpc := List.pairwise_cons.mp hdisj
      have hhead : ∀ q ∈ rest, ∀ pid, pid ∈ s.bound port → pid ∉ s.bound q := hpc.1
      have hdisj_rest := hpc.2
      by_cases hbp : s.bound port = []
      · obtain ⟨s', hrun, henv, hkill, hdel, hsub, hempty⟩ :=
          ensurePortsFree_success rest s hfr hkr hdr hdisj_rest
        refine ⟨s', ?_, henv, ?_, ?_, hsub, ?_⟩
        · simp only [ensurePortsFree, bind_eq, pure_eq, M.bind]
          rw [ensurePortFree_free hfp hbp]
          simp only []
          rw [hrun]
          simp [M.pure, List.filter_cons, hbp]
        · rw [hkill]
          simp [hbp]
        · rw [hdel]
          simp [List.filter_cons, hbp]
        · intro q hq
          rcases List.mem_cons.mp hq with rfl | hq2
          · rw [List.eq_nil_iff_forall_not_mem]
            intro a ha
            have h2 := hsub q a ha
            rw [hbp] at h2
            exact absurd h2 (List.not_mem_nil a)
          · exact hempty q hq2
      · have hsucc := ensurePortFree_success hfp hbp (hk port (by simp))
        have hrun1 := hsucc.1
        have hempty1 := hsucc.2
        have htb : ∀ q pid, pid ∈ (afterReclaim port s).bound q → pid ∈ s.bound q := by
          intro q pid hpid
          simp only [afterReclaim] at hpid
          exact List.mem_of_mem_filter hpid
        have htnot : ∀ q pid, pid ∈ (afterReclaim port s).bound q →
            pid ∉ (afterReclaim port s).dying := by
          intro q pid hpid
          simp only [afterReclaim] at hpid ⊢
          have h2 := (List.mem_filter.mp hpid).2
          simp at h2
          simp [List.mem_append, h2.1, h2.2]
        have hteq : ∀ q ∈ rest, (afterReclaim port s).bound q = s.bound q := by
          intro q hq
          simp only [afterReclaim]
          rw [List.filter_eq_self]
          intro a ha
          have h1 : a ∉ s.dying := hd q (by simp [hq]) a ha
          have h2 : a ∉ s.bound port := fun hmem => hhead q hq a hmem ha
          have h3 : a ∉ diesIn s (s.bound port) :=
            fun hmem => h2 (List.mem_of_mem_filter hmem)
          simp [List.mem_append, h1, h3]
        have hfr' : ∀ p ∈ rest, (afterReclaim port s).probeFault p = none := by
          intro p hp
          simpa [afterReclaim] using hfr p hp
        have hkr' : ∀ p ∈ rest, ∀ pid ∈ (afterReclaim port s).bound p,
            (afterReclaim port s).killBehavior pid = KillBehavior.dies := by
          intro p hp pid hpid
          simpa [afterReclaim] using hkr p hp pid (htb p pid hpid)
        have hdr' : ∀ p ∈ rest, ∀ pid ∈ (afterReclaim port s).bound p,
            pid ∉ (afterReclaim port s).dying :=
          fun p _ pid hpid => htnot p pid hpid
        have hdisj' : List.Pairwise
            (fun p q => ∀ pid, pid ∈ (afterReclaim port s).bound p →
              pid ∉ (afterReclaim port s).bound q) rest := by
          refine hdisj_rest.imp ?_
          intro a b hab pid hpid hq
          exact hab pid (htb a pid hpid) (htb b pid hq)
        obtain ⟨s', hrun, henv, hkill, hdel, hsub, hempty⟩ :=
          ensurePortsFree_success rest (afterReclaim port s) hfr' hkr' hdr' hdisj'
        have hbptrue : (!(s.bound port).isEmpty) = true := by
          simp [List.isEmpty_iff, hbp]
        have hfiltereq : rest.filter (fun q => !((afterReclaim port s).bound q).isEmpty) =
            rest.filter (fun q => !(s.bound q).isEmpty) := by
          apply List.filter_congr
          intro x hx
          rw [hteq x hx]
        have henvst : SameEnv s (afterReclaim port s) := by
          simp [SameEnv, afterReclaim]
        refine ⟨s', ?_, sameEnv_trans henvst henv, ?_, ?_, ?_, ?_⟩
        · simp only [ensurePortsFree, bind_eq, pure_eq, M.bind]
          rw [hrun1]
          simp only []
          rw [hrun]
          simp only [M.pure, List.filter_cons, hbptrue, if_true, List.map_cons]
          congr 2
          rw [hfiltereq]
          apply List.map_congr_left
          intro x hx
          rw [hteq x (List.mem_of_mem_filter hx)]
        · rw [hkill]
          have h1 : (afterReclaim port s).killLog = s.killLog ++ s.bound port := by
            simp [afterReclaim]
          rw [h1, List.map_congr_left (fun p hp => hteq p hp)]
          simp [List.append_assoc]
        · rw [hdel]
          have h1 : (afterReclaim port s).delays = s.delays ++ [400] := by
            simp [afterReclaim]
          rw [h1, hfiltereq]
          simp [List.filter_cons, hbptrue, List.append_assoc]
        · intro q pid hpid
          exact htb q pid (hsub q pid hpid)
        · intro q hq
          rcases List.mem_cons.mp hq with rfl | hq2
          · rw [List.eq_nil_iff_forall_not_mem]
            intro a ha
            have h2 := hsub q a ha
            rw [hempty1] at h2
            exact absurd h2 (List.not_mem_nil a)
          · exact hempty q hq2

theorem occOf_pids (l : List Nat) : (occOf l).pids = l := by
  cases l <;> simp [occOf]

theorem occOf_running (l : List Nat) : (occOf l).running = !l.isEmpty := by
  cases l <;> simp [occOf]

theorem checkPorts_ok : ∀ (ports : List Int) (s : World),
    (∀ p ∈ ports, s.probeFault p = none) →
    checkPorts ports s = Res.ok (ports.map (fun p => (p, occOf (s.bound p)))) s
  | [], s, _ => by simp [checkPorts, M.pure]
  | p :: rest, s, hf => by
      have ih := checkPorts_ok rest s (fun q hq => hf q (by simp [hq]))
      simp only [checkPorts, bind_eq, pure_eq, M.bind]
      rw [checkPort_ok (hf p (by simp))]
      simp only []
      rw [ih]
      simp [M.pure]

theorem checkPorts_err : ∀ (pre : List Int) {p : Int} (post : List Int) {s : World}
    {msg : String},
    (∀ q ∈ pre, s.probeFault q = none) →
    s.probeFault p = some msg →
    checkPorts (pre ++ p :: post) s = Res.err msg s
  | [], p, post, s, msg, _, hp => by
      simp only [checkPorts, List.nil_append, bind_eq, pure_eq, M.bind]
      rw [checkPort_err hp]
  | q :: pre', p, post, s, msg, hpre, hp => by
      have ih := checkPorts_err pre' post (fun r hr => hpre r (by simp [hr])) hp
      simp only [checkPorts, List.cons_append, List.append_eq, bind_eq, pure_eq, M.bind]
      rw [checkPort_ok (hpre q (by simp))]
      simp only []
      rw [ih]

theorem stopKills_ok : ∀ (pcs : List (Int × Occ)) (s : World),
    (∀ pc ∈ pcs, ∀ pid ∈ pc.2.pids, s.killBehavior pid = KillBehavior.dies) →
    ∃ s', stopKills pcs s = Res.ok () s' ∧
      SameEnv s s' ∧
      s'.killLog = s.killLog ++ (pcs.map (fun pc => pc.2.pids)).flatten ∧
      s'.delays = s.delays ++ pcs.map (fun _ => 200) ∧
      s'.dying = s.dying ++ (pcs.map (fun pc => pc.2.pids)).flatten ∧
      (∀ q pid, pid ∈ s'.bound q → pid ∈ s.bound q)
  | [], s, _ => by
      refine ⟨s, ?_, sameEnv_refl s, by simp, by simp, by simp, fun q pid h => h⟩
      simp [stopKills, M.pure]
  | pc :: rest, s, hk => by
      have hks : ∀ pid ∈ pc.2.pids, killSucceeds s pid :=
        fun pid hpid => Or.inl (hk pc (by simp) pid hpid)
      have hdall := diesIn_all_dies (hk pc (by simp))
      obtain ⟨s', hrun, henv, hkill, hdel, hdy, hsub⟩ :=
        stopKills_ok rest
          { s with
              bound := fun p =>
                ((s.bound p).filter
                  (fun pid => !((s.dying ++ pc.2.pids).contains pid)))
              dying := s.dying ++ pc.2.pids
              killLog := s.killLog ++ pc.2.pids
              delays := s.delays ++ [200] }
          (fun pc2 hpc2 pid hpid => hk pc2 (by simp [hpc2]) pid hpid)
      refine ⟨s', ?_, ?_, ?_, ?_, ?_, ?_⟩
      · simp only [stopKills, bind_eq, pure_eq, M.bind]
        rw [killProcesses_ok _ _ hks]
        simp only [delayM, hdall]
        rw [← hrun]
      · exact sameEnv_trans (by simp [SameEnv]) henv
      · rw [hkill]
        simp [List.append_assoc]
      · rw [hdel]
        simp [List.append_assoc]
      · rw [hdy]
        simp [List.append_assoc]
      · intro q pid hpid
        exact List.mem_of_mem_filter (hsub q pid hpid)

theorem statusHandler_unconfigured {url : String} {s : World}
    (h : s.servers url = none) :
    statusHandler url s =
      Res.ok { mkStatus "unconfigured" with message := some "Server not configured" } s := by
  simp [statusHandler, statusBody, M.tryCatch, bind_eq, pure_eq, M.bind,
    getServersM, h, M.pure]

theorem statusHandler_noPorts {url : String} {s : World} {config : Config}
    (h : s.servers url = some config) (hp : getConfigPorts config = []) :
    statusHandler url s =
      Res.ok { mkStatus "unconfigured" with
                 message := some "No ports configured for server" } s := by
  simp [statusHandler, statusBody, M.tryCatch, bind_eq, pure_eq, M.bind,
    getServersM, h, hp, M.pure]

theorem statusBody_probed {url : String} {s : World} {config : Config}
    (h : s.servers url = some config) (hne : getConfigPorts config ≠ [])
    (hf : ∀ p ∈ getConfigPorts config, s.probeFault p = none) :
    statusBody url s =
      Res.ok (statusProbeResp (getConfigPorts config)
        ((getConfigPorts config).map (fun p => (p, occOf (s.bound p))))) s := by
  have hpe : (getConfigPorts config).isEmpty = false := by
    simp [List.isEmpty_iff, hne]
  simp only [statusBody, bind_eq, pure_eq, M.bind, getServersM, h, hpe]
  rw [if_neg (by simp : ¬(false = true))]
  simp only [M.bind]
  rw [checkPorts_ok _ _ hf]
  simp only [statusProbeResp]
  cases hfind : ((getConfigPorts config).map
      (fun p => (p, occOf (s.bound p)))).find? (fun pc => pc.2.running) with
  | none => simp [hfind, M.pure]
  | some rp => simp [hfind, M.pure]

theorem statusHandler_probed {url : String} {s : World} {config : Config}
    (h : s.servers url = some config) (hne : getConfigPorts config ≠ [])
    (hf : ∀ p ∈ getConfigPorts config, s.probeFault p = none) :
    statusHandler url s =
      Res.ok (statusProbeResp (getConfigPorts config)
        ((getConfigPorts config).map (fun p => (p, occOf (s.bound p))))) s := by
  unfold statusHandler
  rw [tryCatch_ok (statusBody_probed h hne hf)]

theorem statusProbeResp_running {ports : List Int} {pcs : List (Int × Occ)}
    {pc : Int × Occ} (hmem : pc ∈ pcs) (hrun : pc.2.running = true) :
    (statusProbeResp ports pcs).status = "running" := by
  unfold statusProbeResp
  cases hfind : pcs.find? (fun pc => pc.2.running) with
  | some rp => simp [mkStatus]
  | none =>
      rw [List.find?_eq_none] at hfind
      exact absurd hrun (by simpa using hfind pc hmem)

theorem statusProbeResp_stopped {ports : List Int} {pcs : List (Int × Occ)}
    (hall : ∀ pc ∈ pcs, pc.2.running = false) :
    (statusProbeResp ports pcs).status = "stopped" := by
  unfold statusProbeResp
  cases hfind : pcs.find? (fun pc => pc.2.running) with
  | some rp =>
      have := List.find?_some hfind
      have hmem := List.mem_of_find?_eq_some hfind
      rw [hall rp hmem] at this
      exact absurd this (by simp)
  | none => simp [mkStatus]

theorem statusHandler_fault {url : String} {s : World} {config : Config}
    {pre : List Int} {p : Int} {post : List Int} {msg : String}
    (h : s.servers url = some config)
    (hports : getConfigPorts config = pre ++ p :: post)
    (hpre : ∀ q ∈ pre, s.probeFault q = none)
    (hp : s.probeFault p = some msg) :
    statusHandler url s = Res.ok { mkStatus "unknown" with error := some msg } s := by
  have hne : getConfigPorts config ≠ [] := by
    rw [hports]
    intro hcontra
    exact absurd hcontra (List.append_ne_nil_of_right_ne_nil pre (by simp))
  have hpe : (getConfigPorts config).isEmpty = false := by
    simp [List.isEmpty_iff, hne]
  have hbody : statusBody url s = Res.err msg s := by
    simp only [statusBody, bind_eq, pure_eq, M.bind, getServersM, h, hpe]
    rw [if_neg (by simp : ¬(false = true))]
    simp only [M.bind]
    rw [hports, checkPorts_err pre post hpre hp]
  unfold statusHandler
  rw [tryCatch_err hbody]
  simp [M.pure]

theorem statusBody_cases (url : String) (s : World) :
    (∃ r s', statusBody url s = Res.ok r s' ∧
      (r.status = "unconfigured" ∨ r.status = "running" ∨ r.status = "stopped")) ∨
    (∃ e s', statusBody url s = Res.err e s') := by
  cases hc : s.servers url with
  | none =>
      left
      refine ⟨{ mkStatus "unconfigured" with message := some "Server not configured" },
        s, ?_, Or.inl rfl⟩
      simp [statusBody, bind_eq, pure_eq, M.bind, getServersM, hc, M.pure]
  | some config =>
      by_cases hp : getConfigPorts config = []
      · left
        refine ⟨{ mkStatus "unconfigured" with
            message := some "No ports configured for server" }, s, ?_, Or.inl rfl⟩
        simp [statusBody, bind_eq, pure_eq, M.bind, getServersM, hc, hp, M.pure]
      · have hpe : (getConfigPorts config).isEmpty = false := by
          simp [List.isEmpty_iff, hp]
        cases hcp : checkPorts (getConfigPorts config) s with
        | ok pcs s2 =>
            left
            cases hfind : pcs.find? (fun pc => pc.2.running) with
            | some rp =>
                refine ⟨{ mkStatus "running" with
                    pid := rp.2.pid
                    port := some rp.1
                    ports := pcs }, s2, ?_, Or.inr (Or.inl rfl)⟩
                simp only [statusBody, bind_eq, pure_eq, M.bind, getServersM, hc, hpe]
                rw [if_neg (by simp : ¬(false = true))]
                simp only [M.bind]
                rw [hcp]
                simp [hfind, M.pure]
            | none =>
                refine ⟨{ mkStatus "stopped" with
                    port := (getConfigPorts config).head?
                    ports := pcs }, s2, ?_, Or.inr (Or.inr rfl)⟩
                simp only [statusBody, bind_eq, pure_eq, M.bind, getServersM, hc, hpe]
                rw [if_neg (by simp : ¬(false = true))]
                simp only [M.bind]
                rw [hcp]
                simp [hfind, M.pure]
        | err e s2 =>
            right
            refine ⟨e, s2, ?_⟩
            simp only [statusBody, bind_eq, pure_eq, M.bind, getServersM, hc, hpe]
            rw [if_neg (by simp : ¬(false = true))]
            simp only [M.bind]
            rw [hcp]

theorem statusHandler_total (url : String) (s : World) :
    ∃ r s', statusHandler url s = Res.ok r s' ∧
      (r.status = "unconfigured" ∨ r.status = "running" ∨ r.status = "stopped" ∨
        r.status = "unknown") := by
  rcases statusBody_cases url s with ⟨r, s', hrun, hst⟩ | ⟨e, s', hrun⟩
  · refine ⟨r, s', ?_, ?_⟩
    · unfold statusHandler
      rw [tryCatch_ok hrun]
    · rcases hst with h1 | h2 | h3
      · exact Or.inl h1
      · exact Or.inr (Or.inl h2)
      · exact Or.inr (Or.inr (Or.inl h3))
  · refine ⟨{ mkStatus "unknown" with error := some e }, s', ?_, ?_⟩
    · unfold statusHandler
      rw [tryCatch_err hrun]
      simp [M.pure]
    · exact Or.inr (Or.inr (Or.inr rfl))

theorem reclaimExc_err {ports : List Int} {s t : World} {e : String}
    (h : ensurePortsFree ports s = Res.err e t) :
    M.tryCatch (M.bind (ensurePortsFree ports) (fun l => M.pure (Except.ok l)))
      (fun e2 => M.pure (Except.error e2)) s = Res.ok (Except.error e) t := by
  simp only [M.tryCatch, M.bind, h, M.pure]

theorem reclaimExc_ok {ports : List Int} {s t : World} {freed : List FreedEntry}
    (h : ensurePortsFree ports s = Res.ok freed t) :
    M.tryCatch (M.bind (ensurePortsFree ports) (fun l => M.pure (Except.ok l)))
      (fun e2 => M.pure (Except.error e2)) s = Res.ok (Except.ok freed) t := by
  simp only [M.tryCatch, M.bind, h, M.pure]

theorem startHandler_stuck {url : String} {s : World} {config : Config}
    {port : Int} {rest : List Int}
    (hc : s.servers url = some config)
    (hports : getConfigPorts config = port :: rest)
    (hf : s.probeFault port = none)
    (hk : ∀ pid ∈ s.bound port, s.killBehavior pid = KillBehavior.dies ∨
      s.killBehavior pid = KillBehavior.stubborn)
    (hd : ∀ pid ∈ s.bound port, pid ∉ s.dying)
    (hstuck : ∃ pid ∈ s.bound port, s.killBehavior pid = KillBehavior.stubborn) :
    startHandler url s =
        Res.ok (opFail (stillBoundMsg port (stuckPids port s))) (afterReclaim port s) ∧
      (afterReclaim port s).launches = s.launches ∧
      (afterReclaim port s).records = s.records := by
  have habort : ensurePortsFree (port :: rest) s =
      Res.err (stillBoundMsg port (stuckPids port s)) (afterReclaim port s) :=
    ensurePortsFree_abort (ensurePortFree_stuck hf hk hd hstuck)
  refine ⟨?_, rfl, rfl⟩
  simp only [startHandler, M.tryCatch, bind_eq, pure_eq, M.bind, getServersM, hc,
    hports, List.isEmpty_cons]
  rw [if_neg (by simp : ¬(false = true))]
  simp only [M.bind]
  rw [reclaimExc_err habort]
  simp [M.pure]

theorem restartHandler_stuck {url : String} {s : World} {config : Config}
    {port : Int} {rest : List Int}
    (hc : s.servers url = some config)
    (hports : getConfigPorts config = port :: rest)
    (hf : s.probeFault port = none)
    (hk : ∀ pid ∈ s.bound port, s.killBehavior pid = KillBehavior.dies ∨
      s.killBehavior pid = KillBehavior.stubborn)
    (hd : ∀ pid ∈ s.bound port, pid ∉ s.dying)
    (hstuck : ∃ pid ∈ s.bound port, s.killBehavior pid = KillBehavior.stubborn) :
    restartHandler url s =
        Res.ok (opFail (stillBoundMsg port (stuckPids port s))) (afterReclaim port s) ∧
      (afterReclaim port s).launches = s.launches ∧
      (afterReclaim port s).records = s.records := by
  have habort : ensurePortsFree (port :: rest) s =
      Res.err (stillBoundMsg port (stuckPids port s)) (afterReclaim port s) :=
    ensurePortsFree_abort (ensurePortFree_stuck hf hk hd hstuck)
  refine ⟨?_, rfl, rfl⟩
  simp only [restartHandler, M.tryCatch, bind_eq, pure_eq, M.bind, getServersM, hc,
    hports, List.isEmpty_cons]
  rw [if_neg (by simp : ¬(false = true))]
  simp only [M.bind]
  rw [reclaimExc_err habort]
  simp [M.pure]

theorem startHandler_dirMissing {url : String} {s : World} {config : Config}
    (hc : s.servers url = some config)
    (hne : getConfigPorts config ≠ [])
    (hf : ∀ p ∈ getConfigPorts config, s.probeFault p = none)
    (hk : ∀ p ∈ getConfigPorts config, ∀ pid ∈ s.bound p,
      s.killBehavior pid = KillBehavior.dies)
    (hd : ∀ p ∈ getConfigPorts config, ∀ pid ∈ s.bound p, pid ∉ s.dying)
    (hdisj : List.Pairwise (fun p q => ∀ pid, pid ∈ s.bound p → pid ∉ s.bound q)
      (getConfigPorts config))
    (hdir : s.dirExists config.directory = false) :
    ∃ s', startHandler url s =
        Res.ok (opFail ("Directory not found: " ++ config.directory)) s' ∧
      SameEnv s s' ∧
      s'.killLog = s.killLog ++ ((getConfigPorts config).map (fun p => s.bound p)).flatten := by
  obtain ⟨s', hrun, henv, hkill, hdel, hsub, hempty⟩ :=
    ensurePortsFree_success (getConfigPorts config) s hf hk hd hdisj
  have hpe : (getConfigPorts config).isEmpty = false := by
    simp [List.isEmpty_iff, hne]
  refine ⟨s', ?_, henv, hkill⟩
  simp only [startHandler, M.tryCatch, bind_eq, pure_eq, M.bind, getServersM, hc, hpe]
  rw [if_neg (by simp : ¬(false = true))]
  simp only [M.bind]
  rw [reclaimExc_ok hrun]
  simp only [M.bind, dirExistsM]
  rw [henv.2.1, hdir]
  rw [if_neg (by simp : ¬(false = true))]
  simp [M.pure]

theorem restartHandler_dirMissing {url : String} {s : World} {config : Config}
    (hc : s.servers url = some config)
    (hne : getConfigPorts config ≠ [])
    (hf : ∀ p ∈ getConfigPorts config, s.probeFault p = none)
    (hk : ∀ p ∈ getConfigPorts config, ∀ pid ∈ s.bound p,
      s.killBehavior pid = KillBehavior.dies)
    (hd : ∀ p ∈ getConfigPorts config, ∀ pid ∈ s.bound p, pid ∉ s.dying)
    (hdisj : List.Pairwise (fun p q => ∀ pid, pid ∈ s.bound p → pid ∉ s.bound q)
      (getConfigPorts config))
    (hdir : s.dirExists config.directory = false) :
    ∃ s', restartHandler url s =
        Res.ok (opFail ("Directory not found: " ++ config.directory)) s' ∧
      SameEnv s s' ∧
      s'.killLog = s.killLog ++ ((getConfigPorts config).map (fun p => s.bound p)).flatten := by
  obtain ⟨s', hrun, henv, hkill, hdel, hsub, hempty⟩ :=
    ensurePortsFree_success (getConfigPorts config) s hf hk hd hdisj
  have hpe : (getConfigPorts config).isEmpty = false := by
    simp [List.isEmpty_iff, hne]
  refine ⟨s', ?_, henv, hkill⟩
  simp only [restartHandler, M.tryCatch, bind_eq, pure_eq, M.bind, getServersM, hc, hpe]
  rw [if_neg (by simp : ¬(false = true))]
  simp only [M.bind]
  rw [reclaimExc_ok hrun]
  simp only [M.bind, dirExistsM]
  rw [henv.2.1, hdir]
  rw [if_neg (by simp : ¬(false = true))]
  simp [M.pure]

theorem runningPorts_eq (ports : List Int) (s : World) :
    (ports.map (fun p => (p, occOf (s.bound p)))).filter (fun pc => pc.2.running) =
      (ports.filter (fun p => !(s.bound p).isEmpty)).map
        (fun p => (p, occOf (s.bound p))) := by
  rw [List.filter_map]
  congr 1
  apply List.filter_congr
  intro p _
  simp [Function.comp, occOf_running]

theorem stopHandler_notRunning {url : String} {s : World} {config : Config}
    (hc : s.servers url = some config)
    (hne : getConfigPorts config ≠ [])
    (hf : ∀ p ∈ getConfigPorts config, s.probeFault p = none)
    (hstop : ∀ p ∈ getConfigPorts config, s.bound p = []) :
    stopHandler url s = Res.ok (opFail "Server is not running") s := by
  have hpe : (getConfigPorts config).isEmpty = false := by
    simp [List.isEmpty_iff, hne]
  have hocc : (getConfigPorts config).filter (fun p => !(s.bound p).isEmpty) = [] := by
    rw [List.filter_eq_nil_iff]
    intro p hp
    simp [hstop p hp]
  have hrp : ((getConfigPorts config).map
      (fun p => (p, occOf (s.bound p)))).filter (fun pc => pc.2.running) = [] := by
    rw [runningPorts_eq, hocc]
    simp
  simp only [stopHandler, M.tryCatch, bind_eq, pure_eq, M.bind, getServersM, hc, hpe]
  rw [if_neg (by simp : ¬(false = true))]
  simp only [M.bind]
  rw [checkPorts_ok _ _ hf]
  simp only [hrp]
  simp [M.pure]

theorem stopHandler_stop {url : String} {s : World} {config : Config}
    (hc : s.servers url = some config)
    (hf : ∀ p ∈ getConfigPorts config, s.probeFault p = none)
    (hk : ∀ p ∈ getConfigPorts config, ∀ pid ∈ s.bound p,
      s.killBehavior pid = KillBehavior.dies)
    (hocc : ∃ p ∈ getConfigPorts config, s.bound p ≠ []) :
    ∃ s', stopHandler url s =
        Res.ok (stopSuccessResp
          ((getConfigPorts config).filter (fun p => !(s.bound p).isEmpty)) s) s' ∧
      s'.servers = s.servers ∧
      s'.probeFault = s.probeFault ∧
      s'.killBehavior = s.killBehavior ∧
      s'.dirExists = s.dirExists ∧
      s'.launches = s.launches ∧
      s'.records = (fun u => if u = url then none else s.records u) ∧
      s'.killLog = s.killLog ++
        (((getConfigPorts config).filter (fun p => !(s.bound p).isEmpty)).map
          (fun p => s.bound p)).flatten ∧
      s'.delays = s.delays ++
        (((getConfigPorts config).filter (fun p => !(s.bound p).isEmpty)).map
          (fun _ => 200) ++ [200]) ∧
      (∀ q ∈ getConfigPorts config, s'.bound q = []) := by
  have hne : getConfigPorts config ≠ [] := by
    obtain ⟨p, hp, _⟩ := hocc
    intro hcontra
    rw [hcontra] at hp
    exact absurd hp (List.not_mem_nil p)
  have hpe : (getConfigPorts config).isEmpty = false := by
    simp [List.isEmpty_iff, hne]
  have hoccne : (getConfigPorts config).filter (fun p => !(s.bound p).isEmpty) ≠ [] := by
    obtain ⟨p, hp, hb⟩ := hocc
    intro hcontra
    rw [List.eq_nil_iff_forall_not_mem] at hcontra
    exact hcontra p (List.mem_filter.mpr ⟨hp, by simp [List.isEmpty_iff, hb]⟩)
  have hkills : ∀ pc ∈ ((getConfigPorts config).filter
        (fun p => !(s.bound p).isEmpty)).map (fun p => (p, occOf (s.bound p))),
      ∀ pid ∈ pc.2.pids, s.killBehavior pid = KillBehavior.dies := by
    intro pc hpc pid hpid
    obtain ⟨p, hp, rfl⟩ := List.mem_map.mp hpc
    rw [occOf_pids] at hpid
    exact hk p (List.mem_of_mem_filter hp) pid hpid
  obtain ⟨s2, hrun2, henv2, hkill2, hdel2, hdy2, hsub2⟩ :=
    stopKills_ok (((getConfigPorts config).filter
      (fun p => !(s.bound p).isEmpty)).map (fun p => (p, occOf (s.bound p)))) s hkills
  have hpidsmap : (((getConfigPorts config).filter
        (fun p => !(s.bound p).isEmpty)).map (fun p => (p, occOf (s.bound p)))).map
        (fun pc => pc.2.pids) =
      ((getConfigPorts config).filter (fun p => !(s.bound p).isEmpty)).map
        (fun p => s.bound p) := by
    rw [List.map_map]
    apply List.map_congr_left
    intro p _
    simp [Function.comp, occOf_pids]
  have h200map : (((getConfigPorts config).filter
        (fun p => !(s.bound p).isEmpty)).map (fun p => (p, occOf (s.bound p)))).map
        (fun pc => (200 : Nat)) =
      ((getConfigPorts config).filter (fun p => !(s.bound p).isEmpty)).map
        (fun p => (200 : Nat)) := by
    rw [List.map_map]
    rfl
  have hstops : (((getConfigPorts config).filter
        (fun p => !(s.bound p).isEmpty)).map (fun p => (p, occOf (s.bound p)))).map
        (fun pc => FreedEntry.mk pc.1 pc.2.pids) =
      ((getConfigPorts config).filter (fun p => !(s.bound p).isEmpty)).map
        (fun p => FreedEntry.mk p (s.bound p)) := by
    rw [List.map_map]
    apply List.map_congr_left
    intro p _
    simp [Function.comp, occOf_pids]
  have hrpE : (((getConfigPorts config).filter
      (fun p => !(s.bound p).isEmpty)).map
        (fun p => (p, occOf (s.bound p)))).isEmpty = false := by
    simp [List.isEmpty_iff, hoccne]
  refine ⟨{ s2 with
      bound := fun q => (s2.bound q).filter (fun pid => !(s2.dying.contains pid))
      delays := s2.delays ++ [200]
      records := fun u => if u = url then none else s2.records u },
    ?_, ?_, ?_, ?_, ?_, ?_, ?_, ?_, ?_, ?_⟩
  · simp only [stopHandler, M.tryCatch, bind_eq, pure_eq, M.bind, getServersM, hc, hpe]
    rw [if_neg (by simp : ¬(false = true))]
    simp only [M.bind]
    rw [checkPorts_ok _ _ hf]
    simp only [runningPorts_eq, hrpE]
    rw [if_neg (by simp : ¬(false = true))]
    simp only [M.tryCatch, M.bind]
    rw [hrun2]
    simp only [delayM, deleteRecord, M.pure, hstops]
    simp [stopSuccessResp]
  · simp [henv2.1]
  · simp [henv2.2.2.1]
  · simp [henv2.2.2.2.1]
  · simp [henv2.2.1]
  · simp [henv2.2.2.2.2.2.1]
  · funext u
    simp [henv2.2.2.2.2.1]
  · simpa [hpidsmap] using hkill2
  · rw [show ({ s2 with
        bound := fun q => (s2.bound q).filter (fun pid => !(s2.dying.contains pid))
        delays := s2.delays ++ [200]
        records := fun u => if u = url then none else s2.records u } : World).delays
      = s2.delays ++ [200] from rfl]
    rw [hdel2, h200map, List.append_assoc]
  · intro q hq
    rw [List.eq_nil_iff_forall_not_mem]
    intro pid hpid
    have hmem := List.mem_filter.mp hpid
    have h1 : pid ∈ s.bound q := hsub2 q pid hmem.1
    have h2 : pid ∉ s2.dying := by simpa using hmem.2
    by_cases hqe : s.bound q = []
    · rw [hqe] at h1
      exact absurd h1 (List.not_mem_nil pid)
    · apply h2
      rw [hdy2, hpidsmap]
      apply List.mem_append_right
      exact List.mem_flatten.mpr ⟨s.bound q, List.mem_map.mpr
        ⟨q, List.mem_filter.mpr ⟨hq, by simp [List.isEmpty_iff, hqe]⟩, rfl⟩, h1⟩

theorem getConfigPorts_eq_foldl (c : Config) :
    getConfigPorts c = (allJ c).foldl addPort [] := by
  rcases c with ⟨d, cmd, p, po, ap⟩
  cases po <;> cases ap <;> simp [getConfigPorts, allJ, List.foldl_append]

theorem numsOf_num (n : Int) (t : List JNum) :
    numsOf (JNum.num n :: t) = n :: numsOf t := by
  simp [numsOf]

theorem numsOf_null (t : List JNum) : numsOf (JNum.null :: t) = numsOf t := by
  simp [numsOf]

theorem numsOf_nan (t : List JNum) : numsOf (JNum.nan :: t) = numsOf t := by
  simp [numsOf]

theorem foldl_addPort_mem : ∀ (arr : List JNum) (l : List Int) (x : Int),
    x ∈ arr.foldl addPort l ↔ x ∈ l ∨ (0 < x ∧ x ∈ numsOf arr)
  | [], l, x => by simp [numsOf]
  | v :: arr', l, x => by
      rw [List.foldl_cons, foldl_addPort_mem arr' (addPort l v) x]
      cases v with
      | null => rw [numsOf_null, show addPort l JNum.null = l from rfl]
      | nan => rw [numsOf_nan, show addPort l JNum.nan = l from rfl]
      | num n =>
          rw [numsOf_num]
          by_cases hn : 0 < n
          · by_cases hmem : n ∈ l
            · rw [show addPort l (JNum.num n) = l from by simp [addPort, hn, hmem]]
              constructor
              · rintro (h | ⟨hx, hm⟩)
                · exact Or.inl h
                · exact Or.inr ⟨hx, List.mem_cons_of_mem _ hm⟩
              · rintro (h | ⟨hx, hm⟩)
                · exact Or.inl h
                · rcases List.mem_cons.mp hm with rfl | hm2
                  · exact Or.inl hmem
                  · exact Or.inr ⟨hx, hm2⟩
            · rw [show addPort l (JNum.num n) = l ++ [n] from by simp [addPort, hn, hmem]]
              constructor
              · rintro (h | ⟨hx, hm⟩)
                · rcases List.mem_append.mp h with h2 | h2
                  · exact Or.inl h2
                  · simp only [List.mem_singleton] at h2
                    subst h2
                    exact Or.inr ⟨hn, List.mem_cons_self _ _⟩
                · exact Or.inr ⟨hx, List.mem_cons_of_mem _ hm⟩
              · rintro (h | ⟨hx, hm⟩)
                · exact Or.inl (List.mem_append_left _ h)
                · rcases List.mem_cons.mp hm with rfl | hm2
                  · exact Or.inl (List.mem_append_right _ (by simp))
                  · exact Or.inr ⟨hx, hm2⟩
          · rw [show addPort l (JNum.num n) = l from by simp [addPort, hn]]
            constructor
            · rintro (h | ⟨hx, hm⟩)
              · exact Or.inl h
              · exact Or.inr ⟨hx, List.mem_cons_of_mem _ hm⟩
            · rintro (h | ⟨hx, hm⟩)
              · exact Or.inl h
              · rcases List.mem_cons.mp hm with rfl | hm2
                · exact absurd hx hn
                · exact Or.inr ⟨hx, hm2⟩

theorem foldl_addPort_nodup : ∀ (arr : List JNum) (l : List Int),
    l.Nodup → (arr.foldl addPort l).Nodup
  | [], l, h => h
  | v :: arr', l, h => by
      rw [List.foldl_cons]
      apply foldl_addPort_nodup arr'
      cases v with
      | null => exact h
      | nan => exact h
      | num n =>
          by_cases hn : 0 < n
          · by_cases hmem : n ∈ l
            · simpa [addPort, hn, hmem] using h
            · rw [show addPort l (JNum.num n) = l ++ [n] from by
                simp [addPort, hn, hmem]]
              simp [List.nodup_append, h, hmem]
          · simpa [addPort, hn] using h

theorem foldl_addPort_sublist : ∀ (arr : List JNum) (l : List Int),
    (arr.foldl addPort l).Sublist (l ++ numsOf arr)
  | [], l => by simp
  | v :: arr', l => by
      rw [List.foldl_cons]
      refine (foldl_addPort_sublist arr' (addPort l v)).trans ?_
      cases v with
      | null => rw [numsOf_null, show addPort l JNum.null = l from rfl]
      | nan => rw [numsOf_nan, show addPort l JNum.nan = l from rfl]
      | num n =>
          rw [numsOf_num]
          by_cases hn : 0 < n
          · by_cases hmem : n ∈ l
            · rw [show addPort l (JNum.num n) = l from by simp [addPort, hn, hmem]]
              exact (List.sublist_cons_self n (numsOf arr')).append_left l
            · rw [show addPort l (JNum.num n) = l ++ [n] from by
                simp [addPort, hn, hmem]]
              rw [List.append_assoc, List.singleton_append]
          · rw [show addPort l (JNum.num n) = l from by simp [addPort, hn]]
            exact (List.sublist_cons_self n (numsOf arr')).append_left l

theorem getConfigPorts_nodup (c : Config) : (getConfigPorts c).Nodup := by
  rw [getConfigPorts_eq_foldl]
  exact foldl_addPort_nodup _ _ List.nodup_nil

theorem getConfigPorts_mem (c : Config) (x : Int) :
    x ∈ getConfigPorts c ↔ 0 < x ∧ x ∈ numsOf (allJ c) := by
  rw [getConfigPorts_eq_foldl, foldl_addPort_mem]
  simp

theorem getConfigPorts_sublist (c : Config) :
    (getConfigPorts c).Sublist (numsOf (allJ c)) := by
  rw [getConfigPorts_eq_foldl]
  simpa using foldl_addPort_sublist (allJ c) []

/-- C1: for every port, reclaim (`ensurePortFree`) returns
`{freed:false, pids:[]}` on an unoccupied port with the world returned
unchanged — so no terminate call and no mutation of any kind — and on an
occupied port whose occupants all terminate successfully it returns
`{freed:true, pids := the originally occupying PIDs}` in a world where a
subsequent `inspect` (`checkPort`) of that port reports `running:false`. -/
theorem claim_C1_reclaim (p1 p2 : Int) (s1 s2 : World)
    (hf1 : s1.probeFault p1 = none) (hb1 : s1.bound p1 = [])
    (hf2 : s2.probeFault p2 = none) (hb2 : s2.bound p2 ≠ [])
    (hk2 : ∀ pid ∈ s2.bound p2, s2.killBehavior pid = KillBehavior.dies) :
    ensurePortFree p1 s1 = Res.ok { freed := false, pids := [] } s1 ∧
    ∃ s', ensurePortFree p2 s2 = Res.ok { freed := true, pids := s2.bound p2 } s' ∧
      checkPort p2 s' = Res.ok { running := false, pid := none, pids := [] } s' := by
  refine ⟨ensurePortFree_free hf1 hb1, afterReclaim p2 s2,
    (ensurePortFree_success hf2 hb2 hk2).1, ?_⟩
  rw [checkPort_ok (show (afterReclaim p2 s2).probeFault p2 = none from hf2)]
  rw [(ensurePortFree_success hf2 hb2 hk2).2]
  rfl

/-- Witness for C1: in `wRun`, port 6000 is free and port 7000 is occupied
by PID 41, which dies on signal. -/
theorem claim_C1_witness :
    ensurePortFree 6000 wRun = Res.ok { freed := false, pids := [] } wRun ∧
    ∃ s', ensurePortFree 7000 wRun =
        Res.ok { freed := true, pids := wRun.bound 7000 } s' ∧
      checkPort 7000 s' = Res.ok { running := false, pid := none, pids := [] } s' :=
  claim_C1_reclaim 6000 7000 wRun wRun (by decide) (by decide) (by decide)
    (by decide) (by decide)

/-- C7: `getConfigPorts` normalizes any config's port information into one
de-duplicated, order-preserving list of positive integers: the three
configs `{port:3000}`, `{ports:[3000,3000]}` and
`{port:3000, additionalPorts:[3000]}` all yield exactly `[3000]`, and in
general the result has no duplicates, contains only positive values, is an
order-preserving subsequence of the numbers appearing in the config's
port fields, and contains exactly the positive numbers among them. -/
theorem claim_C7_port_normalization :
    (getConfigPorts cfg3A = [3000] ∧ getConfigPorts cfg3B = [3000] ∧
      getConfigPorts cfg3C = [3000]) ∧
    ∀ c : Config, (getConfigPorts c).Nodup ∧
      (∀ x ∈ getConfigPorts c, 0 < x) ∧
      (getConfigPorts c).Sublist (numsOf (allJ c)) ∧
      (∀ x : Int, x ∈ getConfigPorts c ↔ 0 < x ∧ x ∈ numsOf (allJ c)) := by
  refine ⟨⟨by decide, by decide, by decide⟩, fun c => ?_⟩
  exact ⟨getConfigPorts_nodup c,
    fun x hx => ((getConfigPorts_mem c x).mp hx).1,
    getConfigPorts_sublist c,
    getConfigPorts_mem c⟩

/-- Witness for C7: the general characterization evaluated at `cfg3B`. -/
theorem claim_C7_witness :
    (getConfigPorts cfg3B).Nodup ∧
    (3000 ∈ getConfigPorts cfg3B ↔ 0 < (3000 : Int) ∧ 3000 ∈ numsOf (allJ cfg3B)) :=
  ⟨(claim_C7_port_normalization.2 cfg3B).1,
    (claim_C7_port_normalization.2 cfg3B).2.2.2 3000⟩

theorem afterReclaim_bound_stuck {port : Int} {s : World}
    (hk : ∀ pid ∈ s.bound port, s.killBehavior pid = KillBehavior.dies ∨
      s.killBehavior pid = KillBehavior.stubborn)
    (hd : ∀ pid ∈ s.bound port, pid ∉ s.dying) :
    (afterReclaim port s).bound port = stuckPids port s := by
  simp only [afterReclaim, stuckPids]
  apply List.filter_congr
  intro x hx
  rcases hk x hx with hdies | hstu
  · have hxd : x ∈ s.dying ++ diesIn s (s.bound port) :=
      List.mem_append_right _ (List.mem_filter.mpr ⟨hx, by simp [hdies]⟩)
    simp [hxd, hdies]
  · have hxd : x ∉ s.dying ++ diesIn s (s.bound port) := by
      rw [List.mem_append]
      rintro (h1 | h2)
      · exact hd x hx h1
      · have := (List.mem_filter.mp h2).2
        simp [hstu] at this
    simp [hxd, hstu]

/-- C2: when some occupant of a port survives termination plus the settle
delay, reclaim throws the `Unable to free port ...` (PortStillBound) error
built from the port number and exactly the PIDs the re-inspection still
sees bound; in that case both the start and the restart operations return
that error as a failure response and never call the launcher: the final
world's `launches` log and `processes` map equal the initial ones. -/
theorem claim_C2_port_still_bound (url : String) (s : World) (config : Config)
    (port : Int) (rest : List Int)
    (hc : s.servers url = some config)
    (hports : getConfigPorts config = port :: rest)
    (hf : s.probeFault port = none)
    (hk : ∀ pid ∈ s.bound port, s.killBehavior pid = KillBehavior.dies ∨
      s.killBehavior pid = KillBehavior.stubborn)
    (hd : ∀ pid ∈ s.bound port, pid ∉ s.dying)
    (hstuck : ∃ pid ∈ s.bound port, s.killBehavior pid = KillBehavior.stubborn) :
    ensurePortFree port s =
      Res.err (stillBoundMsg port (stuckPids port s)) (afterReclaim port s) ∧
    (afterReclaim port s).bound port = stuckPids port s ∧
    stuckPids port s ≠ [] ∧
    startHandler url s =
      Res.ok (opFail (stillBoundMsg port (stuckPids port s))) (afterReclaim port s) ∧
    restartHandler url s =
      Res.ok (opFail (stillBoundMsg port (stuckPids port s))) (afterReclaim port s) ∧
    (afterReclaim port s).launches = s.launches ∧
    (afterReclaim port s).records = s.records := by
  have hne : stuckPids port s ≠ [] := by
    obtain ⟨w, hwmem, hwstu⟩ := hstuck
    intro h
    rw [List.eq_nil_iff_forall_not_mem] at h
    exact h w (List.mem_filter.mpr ⟨hwmem, by simp [hwstu]⟩)
  exact ⟨ensurePortFree_stuck hf hk hd hstuck,
    afterReclaim_bound_stuck hk hd, hne,
    (startHandler_stuck hc hports hf hk hd hstuck).1,
    (restartHandler_stuck hc hports hf hk hd hstuck).1, rfl, rfl⟩

/-- Witness for C2: in `wStuck`, port 7000 is held by PIDs 41 (dies) and
42 (ignores the signal); the saved config for `"app"` has port list
`[7000]`. -/
theorem claim_C2_witness :
    ensurePortFree 7000 wStuck =
      Res.err (stillBoundMsg 7000 (stuckPids 7000 wStuck)) (afterReclaim 7000 wStuck) ∧
    (afterReclaim 7000 wStuck).bound 7000 = stuckPids 7000 wStuck ∧
    stuckPids 7000 wStuck ≠ [] ∧
    startHandler "app" wStuck =
      Res.ok (opFail (stillBoundMsg 7000 (stuckPids 7000 wStuck)))
        (afterReclaim 7000 wStuck) ∧
    restartHandler "app" wStuck =
      Res.ok (opFail (stillBoundMsg 7000 (stuckPids 7000 wStuck)))
        (afterReclaim 7000 wStuck) ∧
    (afterReclaim 7000 wStuck).launches = wStuck.launches ∧
    (afterReclaim 7000 wStuck).records = wStuck.records :=
  claim_C2_port_still_bound "app" wStuck cfgOne 7000 [] (by decide) (by decide)
    (by decide) (by decide) (by decide) ⟨42, by decide, by decide⟩

/-- C3: `ensurePortsFree` (reclaimAll) walks the ports strictly
sequentially: when every reclaim succeeds (here: disjoint occupancies
whose members all die), the result carries one `{port, pids}` entry per
port that actually had an occupant — ports found free are omitted, not
zero-valued — in port order, and afterwards every listed port is free; and
the first reclaim failure propagates as the whole call's failure with the
failing reclaim's world, so the remaining ports' reclaims never run. -/
theorem claim_C3_reclaimAll (ports : List Int) (s : World)
    (hf : ∀ p ∈ ports, s.probeFault p = none)
    (hk : ∀ p ∈ ports, ∀ pid ∈ s.bound p, s.killBehavior pid = KillBehavior.dies)
    (hd : ∀ p ∈ ports, ∀ pid ∈ s.bound p, pid ∉ s.dying)
    (hdisj : List.Pairwise (fun p q => ∀ pid, pid ∈ s.bound p → pid ∉ s.bound q) ports)
    (port2 : Int) (rest2 : List Int) (s2 t : World) (e : String)
    (hfail : ensurePortFree port2 s2 = Res.err e t) :
    (∃ s', ensurePortsFree ports s =
        Res.ok ((ports.filter (fun p => !(s.bound p).isEmpty)).map
          (fun p => { port := p, pids := s.bound p })) s' ∧
      (∀ q ∈ ports, s'.bound q = [])) ∧
    ensurePortsFree (port2 :: rest2) s2 = Res.err e t := by
  obtain ⟨s', hrun, _, _, _, _, hempty⟩ :=
    ensurePortsFree_success ports s hf hk hd hdisj
  exact ⟨⟨s', hrun, hempty⟩, ensurePortsFree_abort hfail⟩

/-- Witness for C3: in `wRun`, reclaiming `[6000, 7000]` frees only 7000
(6000 is omitted as already free); and with the stuck world of C2, a
failing first reclaim aborts the whole `[7000, 8000]` run. -/
theorem claim_C3_witness :
    (∃ s', ensurePortsFree [6000, 7000] wRun =
        Res.ok (([6000, 7000].filter (fun p => !(wRun.bound p).isEmpty)).map
          (fun p => { port := p, pids := wRun.bound p })) s' ∧
      (∀ q ∈ [(6000 : Int), 7000], s'.bound q = [])) ∧
    ensurePortsFree [7000, 8000] wStuck =
      Res.err (stillBoundMsg 7000 (stuckPids 7000 wStuck)) (afterReclaim 7000 wStuck) :=
  claim_C3_reclaimAll [6000, 7000] wRun (by decide) (by decide) (by decide)
    (by decide) 7000 [8000] wStuck (afterReclaim 7000 wStuck)
    (stillBoundMsg 7000 (stuckPids 7000 wStuck))
    (ensurePortFree_stuck (by decide) (by decide) (by decide)
      ⟨42, by decide, by decide⟩)

/-- C4 counterexample: in `wRun` the `"app"` server has exactly one
occupied configured port (7000), yet a successful stop runs the settle
delay twice — once inside the per-port loop and once after it — so the
delay is not applied exactly once overall as the claim states. -/
theorem claim_C4_counterexample :
    resOk (stopHandler "app" wRun) = true ∧
    (resState (stopHandler "app" wRun)).delays = [200, 200] ∧
    ((resState (stopHandler "app" wRun)).delays.length = 1 → False) := by
  refine ⟨rfl, rfl, ?_⟩
  intro h
  simp [show (resState (stopHandler "app" wRun)).delays = [200, 200] from rfl] at h

/-- C4 (amended): in stop, for every server with at least one occupied
configured port, the occupants of each occupied port are terminated
sequentially per port (the kill log concatenates the occupant lists in
port order), and the 200ms settle delay is applied once after each
occupied port's terminations plus once more after the loop — occupied
count + 1 times in total — rather than exactly once overall. -/
theorem claim_C4_amended (url : String) (s : World) (config : Config)
    (hc : s.servers url = some config)
    (hf : ∀ p ∈ getConfigPorts config, s.probeFault p = none)
    (hk : ∀ p ∈ getConfigPorts config, ∀ pid ∈ s.bound p,
      s.killBehavior pid = KillBehavior.dies)
    (hocc : ∃ p ∈ getConfigPorts config, s.bound p ≠ []) :
    ∃ s', stopHandler url s =
        Res.ok (stopSuccessResp
          ((getConfigPorts config).filter (fun p => !(s.bound p).isEmpty)) s) s' ∧
      s'.killLog = s.killLog ++
        (((getConfigPorts config).filter (fun p => !(s.bound p).isEmpty)).map
          (fun p => s.bound p)).flatten ∧
      s'.delays = s.delays ++
        (((getConfigPorts config).filter (fun p => !(s.bound p).isEmpty)).map
          (fun _ => 200) ++ [200]) := by
  obtain ⟨s', hrun, _, _, _, _, _, _, hkill, hdel, _⟩ :=
    stopHandler_stop hc hf hk hocc
  exact ⟨s', hrun, hkill, hdel⟩

/-- Witness for C4 (amended) in `wRun`: one occupied port, so the delay
log gains `[200] ++ [200]`. -/
theorem claim_C4_witness :
    ∃ s', stopHandler "app" wRun =
        Res.ok (stopSuccessResp
          ((getConfigPorts cfgTwo).filter (fun p => !(wRun.bound p).isEmpty)) wRun) s' ∧
      s'.killLog = wRun.killLog ++
        (((getConfigPorts cfgTwo).filter (fun p => !(wRun.bound p).isEmpty)).map
          (fun p => wRun.bound p)).flatten ∧
      s'.delays = wRun.delays ++
        (((getConfigPorts cfgTwo).filter (fun p => !(wRun.bound p).isEmpty)).map
          (fun _ => 200) ++ [200]) :=
  claim_C4_amended "app" wRun cfgTwo (by decide) (by decide) (by decide)
    ⟨7000, by decide, by decide⟩

/-- C5: when the configured directory does not exist, start and restart
fail with the `Directory not found: <path>` error and perform no launch
(the `launches` log, the `processes` map and the PID counter are
unchanged) even though every configured port was already reclaimed first:
the kill log shows the reclamation's termination signals, placing the
directory check after reclamation and before the launcher. -/
theorem claim_C5_dir_missing (url : String) (s : World) (config : Config)
    (hc : s.servers url = some config)
    (hne : getConfigPorts config ≠ [])
    (hf : ∀ p ∈ getConfigPorts config, s.probeFault p = none)
    (hk : ∀ p ∈ getConfigPorts config, ∀ pid ∈ s.bound p,
      s.killBehavior pid = KillBehavior.dies)
    (hd : ∀ p ∈ getConfigPorts config, ∀ pid ∈ s.bound p, pid ∉ s.dying)
    (hdisj : List.Pairwise (fun p q => ∀ pid, pid ∈ s.bound p → pid ∉ s.bound q)
      (getConfigPorts config))
    (hdir : s.dirExists config.directory = false) :
    (∃ s', startHandler url s =
        Res.ok (opFail ("Directory not found: " ++ config.directory)) s' ∧
      s'.launches = s.launches ∧ s'.records = s.records ∧ s'.nextPid = s.nextPid ∧
      s'.killLog = s.killLog ++
        ((getConfigPorts config).map (fun p => s.bound p)).flatten) ∧
    (∃ s2, restartHandler url s =
        Res.ok (opFail ("Directory not found: " ++ config.directory)) s2 ∧
      s2.launches = s.launches ∧ s2.records = s.records ∧ s2.nextPid = s.nextPid ∧
      s2.killLog = s.killLog ++
        ((getConfigPorts config).map (fun p => s.bound p)).flatten) := by
  constructor
  · obtain ⟨s', hrun, henv, hkill⟩ := startHandler_dirMissing hc hne hf hk hd hdisj hdir
    exact ⟨s', hrun, henv.2.2.2.2.2.1, henv.2.2.2.2.1, henv.2.2.2.2.2.2, hkill⟩
  · obtain ⟨s2, hrun, henv, hkill⟩ := restartHandler_dirMissing hc hne hf hk hd hdisj hdir
    exact ⟨s2, hrun, henv.2.2.2.2.2.1, henv.2.2.2.2.1, henv.2.2.2.2.2.2, hkill⟩

/-- Witness for C5 in `wNoDir`: port 7000 is reclaimed (PID 41 signalled),
then the missing `/srv/app` directory aborts start and restart without a
launch. -/
theorem claim_C5_witness :
    (∃ s', startHandler "app" wNoDir =
        Res.ok (opFail ("Directory not found: " ++ cfgOne.directory)) s' ∧
      s'.launches = wNoDir.launches ∧ s'.records = wNoDir.records ∧
      s'.nextPid = wNoDir.nextPid ∧
      s'.killLog = wNoDir.killLog ++
        ((getConfigPorts cfgOne).map (fun p => wNoDir.bound p)).flatten) ∧
    (∃ s2, restartHandler "app" wNoDir =
        Res.ok (opFail ("Directory not found: " ++ cfgOne.directory)) s2 ∧
      s2.launches = wNoDir.launches ∧ s2.records = wNoDir.records ∧
      s2.nextPid = wNoDir.nextPid ∧
      s2.killLog = wNoDir.killLog ++
        ((getConfigPorts cfgOne).map (fun p => wNoDir.bound p)).flatten) :=
  claim_C5_dir_missing "app" wNoDir cfgOne (by decide) (by decide) (by decide)
    (by decide) (by decide) (by decide) (by decide)

/-- C6: stop on a server with zero occupied configured ports resolves (it
never throws) to `success:false` with the `Server is not running` message
and returns the world exactly as it was — no termination signal sent, no
delay run, the LaunchRecord map untouched; and after a successful stop
whose occupants all die, an immediate second stop observes no occupancy
and fails gracefully with the same `Server is not running` outcome. -/
theorem claim_C6_stop_idempotent (url1 : String) (s1 : World) (config1 : Config)
    (hc1 : s1.servers url1 = some config1)
    (hne1 : getConfigPorts config1 ≠ [])
    (hf1 : ∀ p ∈ getConfigPorts config1, s1.probeFault p = none)
    (hstop1 : ∀ p ∈ getConfigPorts config1, s1.bound p = [])
    (url2 : String) (s2 : World) (config2 : Config)
    (hc2 : s2.servers url2 = some config2)
    (hf2 : ∀ p ∈ getConfigPorts config2, s2.probeFault p = none)
    (hk2 : ∀ p ∈ getConfigPorts config2, ∀ pid ∈ s2.bound p,
      s2.killBehavior pid = KillBehavior.dies)
    (hocc2 : ∃ p ∈ getConfigPorts config2, s2.bound p ≠ []) :
    stopHandler url1 s1 = Res.ok (opFail "Server is not running") s1 ∧
    ∃ smid, stopHandler url2 s2 =
        Res.ok (stopSuccessResp
          ((getConfigPorts config2).filter (fun p => !(s2.bound p).isEmpty)) s2) smid ∧
      (stopSuccessResp
        ((getConfigPorts config2).filter (fun p => !(s2.bound p).isEmpty)) s2).success
          = true ∧
      stopHandler url2 smid = Res.ok (opFail "Server is not running") smid := by
  refine ⟨stopHandler_notRunning hc1 hne1 hf1 hstop1, ?_⟩
  have hne2 : getConfigPorts config2 ≠ [] := by
    obtain ⟨p, hp, _⟩ := hocc2
    intro hcon
    rw [hcon] at hp
    exact absurd hp (List.not_mem_nil p)
  obtain ⟨smid, hrun, hserv, hprobe, _, _, _, _, _, _, hempty⟩ :=
    stopHandler_stop hc2 hf2 hk2 hocc2
  refine ⟨smid, hrun, rfl, ?_⟩
  have hcmid : smid.servers url2 = some config2 := by
    rw [hserv]
    exact hc2
  have hfmid : ∀ p ∈ getConfigPorts config2, smid.probeFault p = none := by
    intro p hp
    rw [hprobe]
    exact hf2 p hp
  exact stopHandler_notRunning hcmid hne2 hfmid hempty

/-- Witness for C6: `wFree` (everything free) for the not-running branch
and `wRun` (port 7000 occupied by PID 41) for the stop-then-stop branch. -/
theorem claim_C6_witness :
    stopHandler "app" wFree = Res.ok (opFail "Server is not running") wFree ∧
    ∃ smid, stopHandler "app" wRun =
        Res.ok (stopSuccessResp
          ((getConfigPorts cfgTwo).filter (fun p => !(wRun.bound p).isEmpty)) wRun) smid ∧
      (stopSuccessResp
        ((getConfigPorts cfgTwo).filter (fun p => !(wRun.bound p).isEmpty)) wRun).success
          = true ∧
      stopHandler "app" smid = Res.ok (opFail "Server is not running") smid :=
  claim_C6_stop_idempotent "app" wFree cfgTwo (by decide) (by decide) (by decide)
    (by decide) "app" wRun cfgTwo (by decide) (by decide) (by decide)
    ⟨7000, by decide, by decide⟩

/-- C8: `killProcesses` (terminate) resolves whenever every per-PID kill
is forgiven — in particular a target whose `kill` reports `No such
process` counts as success, mutating nothing but the signal log, so
terminating an already-stopped PID is not an error and repeating it is
harmless — while the first kill whose error does not match
`/No such process/i` (e.g. permission denied) rejects the whole call with
that error, leaving the remaining PIDs unsignalled. -/
theorem claim_C8_terminate (pids1 : List Nat) (s1 : World)
    (h1 : ∀ pid ∈ pids1, killSucceeds s1 pid)
    (pid0 : Nat) (s0 : World) (m0 : String)
    (h0 : s0.killBehavior pid0 = KillBehavior.err m0)
    (hn0 : isNoSuchProcess m0 = true)
    (good : List Nat) (bad : Nat) (rest : List Nat) (s3 : World) (msg : String)
    (hg : ∀ pid ∈ good, killSucceeds s3 pid)
    (hb : s3.killBehavior bad = KillBehavior.err msg)
    (hbm : isNoSuchProcess msg = false) :
    killProcesses pids1 s1 =
      Res.ok () { s1 with dying := s1.dying ++ diesIn s1 pids1,
                          killLog := s1.killLog ++ pids1 } ∧
    killProcesses [pid0] s0 =
      Res.ok () { s0 with killLog := s0.killLog ++ [pid0] } ∧
    killProcesses [pid0] { s0 with killLog := s0.killLog ++ [pid0] } =
      Res.ok () { s0 with killLog := s0.killLog ++ [pid0] ++ [pid0] } ∧
    killProcesses (good ++ bad :: rest) s3 =
      Res.err msg { s3 with dying := s3.dying ++ diesIn s3 good,
                            killLog := s3.killLog ++ good ++ [bad] } := by
  have hks0 : killSucceeds s0 pid0 := Or.inr (Or.inr ⟨m0, h0, hn0⟩)
  refine ⟨killProcesses_ok pids1 s1 h1, ?_, ?_, killProcesses_err good bad rest s3 msg hg hb hbm⟩
  · rw [killProcesses_ok [pid0] s0 (by simpa using hks0)]
    simp [diesIn, h0]
  · rw [killProcesses_ok [pid0] _ (by simpa [killSucceeds] using hks0)]
    simp [diesIn, h0]

/-- Witness for C8 in `wKill`: PIDs 31 and 32 die, PID 77 is already gone
(forgiven), PID 88 is protected and rejects the batch `[31, 88, 32]`,
leaving 32 unsignalled. -/
theorem claim_C8_witness :
    killProcesses [31, 77, 32] wKill =
      Res.ok () { wKill with dying := wKill.dying ++ diesIn wKill [31, 77, 32],
                             killLog := wKill.killLog ++ [31, 77, 32] } ∧
    killProcesses [77] wKill =
      Res.ok () { wKill with killLog := wKill.killLog ++ [77] } ∧
    killProcesses [77] { wKill with killLog := wKill.killLog ++ [77] } =
      Res.ok () { wKill with killLog := wKill.killLog ++ [77] ++ [77] } ∧
    killProcesses ([31] ++ 88 :: [32]) wKill =
      Res.err "kill: Operation not permitted"
        { wKill with dying := wKill.dying ++ diesIn wKill [31],
                     killLog := wKill.killLog ++ [31] ++ [88] } :=
  claim_C8_terminate [31, 77, 32] wKill
    (by
      intro pid hmem
      fin_cases hmem
      · exact Or.inl (by decide)
      · exact Or.inr (Or.inr ⟨"kill: No such process", by decide, by decide⟩)
      · exact Or.inl (by decide))
    77 wKill "kill: No such process" (by decide) (by decide) [31] 88 [32] wKill
    "kill: Operation not permitted"
    (by
      intro pid hmem
      fin_cases hmem
      exact Or.inl (by decide))
    (by decide) (by decide)

/-- C9: `status` never hard-fails: for every identity and world it
resolves to a response whose status is one of `unconfigured`, `running`,
`stopped`, `unknown`; with no saved config it reports `unconfigured`; with
a fault-free probe it reports `running` exactly when some configured port
is occupied and `stopped` when none is; and when a probe throws, the
handler swallows the exception and answers `unknown` carrying the error
message instead of propagating the failure. -/
theorem claim_C9_status_never_fails :
    (∀ (url : String) (s : World), ∃ r s', statusHandler url s = Res.ok r s' ∧
      (r.status = "unconfigured" ∨ r.status = "running" ∨ r.status = "stopped" ∨
        r.status = "unknown")) ∧
    (∀ (url : String) (s : World), s.servers url = none →
      statusHandler url s =
        Res.ok { mkStatus "unconfigured" with
          message := some "Server not configured" } s) ∧
    (∀ (url : String) (s : World) (config : Config) (p : Int),
      s.servers url = some config →
      (∀ q ∈ getConfigPorts config, s.probeFault q = none) →
      p ∈ getConfigPorts config → s.bound p ≠ [] →
      ∃ r, statusHandler url s = Res.ok r s ∧ r.status = "running") ∧
    (∀ (url : String) (s : World) (config : Config),
      s.servers url = some config → getConfigPorts config ≠ [] →
      (∀ q ∈ getConfigPorts config, s.probeFault q = none) →
      (∀ q ∈ getConfigPorts config, s.bound q = []) →
      ∃ r, statusHandler url s = Res.ok r s ∧ r.status = "stopped") ∧
    (∀ (url : String) (s : World) (config : Config) (pre : List Int) (p : Int)
        (post : List Int) (msg : String),
      s.servers url = some config →
      getConfigPorts config = pre ++ p :: post →
      (∀ q ∈ pre, s.probeFault q = none) →
      s.probeFault p = some msg →
      statusHandler url s = Res.ok { mkStatus "unknown" with error := some msg } s) := by
  refine ⟨statusHandler_total, fun url s h => statusHandler_unconfigured h,
    ?_, ?_, fun url s config pre p post msg hc hports hpre hp =>
      statusHandler_fault hc hports hpre hp⟩
  · intro url s config p hc hf hp hb
    have hne : getConfigPorts config ≠ [] := by
      intro hcon
      rw [hcon] at hp
      exact absurd hp (List.not_mem_nil p)
    refine ⟨_, statusHandler_probed hc hne hf, ?_⟩
    exact statusProbeResp_running (List.mem_map.mpr ⟨p, hp, rfl⟩)
      (by simp [occOf_running, List.isEmpty_iff, hb])
  · intro url s config hc hne hf hstop
    refine ⟨_, statusHandler_probed hc hne hf, ?_⟩
    apply statusProbeResp_stopped
    intro pc hpc
    obtain ⟨p, hp, rfl⟩ := List.mem_map.mp hpc
    simp [occOf_running, List.isEmpty_iff, hstop p hp]

/-- Witness for C9: totality and the absent-config case at `wFree` with an
unknown identity, `running` at `wRun` (port 7000 occupied), `stopped` at
`wFree`, and `unknown` at `wFault` whose port-7000 probe throws. -/
theorem claim_C9_witness :
    (∃ r s', statusHandler "nope" wFree = Res.ok r s' ∧
      (r.status = "unconfigured" ∨ r.status = "running" ∨ r.status = "stopped" ∨
        r.status = "unknown")) ∧
    statusHandler "nope" wFree =
      Res.ok { mkStatus "unconfigured" with
        message := some "Server not configured" } wFree ∧
    (∃ r, statusHandler "app" wRun = Res.ok r wRun ∧ r.status = "running") ∧
    (∃ r, statusHandler "app" wFree = Res.ok r wFree ∧ r.status = "stopped") ∧
    statusHandler "app" wFault =
      Res.ok { mkStatus "unknown" with error := some "spawn lsof EAGAIN" } wFault :=
  ⟨claim_C9_status_never_fails.1 "nope" wFree,
    claim_C9_status_never_fails.2.1 "nope" wFree (by decide),
    claim_C9_status_never_fails.2.2.1 "app" wRun cfgTwo 7000 (by decide) (by decide)
      (by decide) (by decide),
    claim_C9_status_never_fails.2.2.2.1 "app" wFree cfgTwo (by decide) (by decide)
      (by decide) (by decide),
    claim_C9_status_never_fails.2.2.2.2 "app" wFault cfgOne [] 7000 []
      "spawn lsof EAGAIN" (by decide) (by decide) (by decide) (by decide)⟩

/-- C10: a saved config whose normalized port set is empty makes `status`
answer `unconfigured` with the `No ports configured for server` message —
the same status value an absent config produces — rather than `stopped`,
`running` or an error. -/
theorem claim_C10_no_ports_unconfigured (url : String) (s : World) (config : Config)
    (hc : s.servers url = some config) (hp : getConfigPorts config = [])
    (url2 : String) (s2 : World) (hc2 : s2.servers url2 = none) :
    statusHandler url s =
      Res.ok { mkStatus "unconfigured" with
        message := some "No ports configured for server" } s ∧
    ∃ r2, statusHandler url2 s2 = Res.ok r2 s2 ∧
      r2.status = ({ mkStatus "unconfigured" with
        message := some "No ports configured for server" } : StatusResponse).status :=
  ⟨statusHandler_noPorts hc hp, _, statusHandler_unconfigured hc2, rfl⟩

/-- Witness for C10: `cfgEmpty` (a null port, a `ports` array with only
`NaN`, `0` and `-5`, and an empty `additionalPorts`) yields the empty port
set, and status under `wEmpty` answers `unconfigured` just as it does for
the unknown identity `"nope"`. -/
theorem claim_C10_witness :
    statusHandler "app" wEmpty =
      Res.ok { mkStatus "unconfigured" with
        message := some "No ports configured for server" } wEmpty ∧
    ∃ r2, statusHandler "nope" wEmpty = Res.ok r2 wEmpty ∧
      r2.status = ({ mkStatus "unconfigured" with
        message := some "No ports configured for server" } : StatusResponse).status :=
  claim_C10_no_ports_unconfigured "app" wEmpty cfgEmpty (by decide) (by decide)
    "nope" wEmpty (by decide)
